import Mathlib

/-!
Shallow embedding of the CHIP-8 interpreter in `src/main.rs` (struct `Chip8`
and its `impl`), together with theorems checking the natural-language
specification against it.

Modelling conventions:
* Machine integers (`u8`, `u16`, `usize`) are `Nat`; wherever the Rust code
  can overflow, underflow or index out of bounds, the model is explicit about
  it.  Rust arithmetic `+=` / `-=` on fixed-width integers panics on overflow
  under the debug profile (the profile `cargo run` uses); such a panic is
  modelled by the distinct outcome `StepResult.panicked`, as is an
  out-of-bounds slice index.
* The register file always has exactly 16 entries and every register index
  extracted from an opcode is a nibble shifted right, hence `< 16`, so the
  Rust indexing `self.registers[vx]` can never panic; it is modelled by the
  total accessors `Chip8.reg` / `Chip8.setReg`.
* Memory, the stack and the display rows are `List Nat`; accesses whose
  index is not structurally bounded use `l[i]?` and map `none` to a panic.
* `exec_instruction` takes the bytes of the line read from stdin by the
  `FX0A` handler as an extra parameter, since that read is an external input.
-/

set_option linter.unusedVariables false
set_option maxRecDepth 4000

namespace Chip8Spec

/-- The `static SPRITE_FOR_CHARS: [u8; 80]` glyph table. -/
def SPRITE_FOR_CHARS : List Nat := [
  0xF0, 0x90, 0x90, 0x90, 0xF0,
  0x20, 0x60, 0x20, 0x20, 0x70,
  0xF0, 0x10, 0xF0, 0x80, 0xF0,
  0xF0, 0x10, 0xF0, 0x10, 0x10,
  0x90, 0x90, 0xF0, 0x10, 0x10,
  0xF0, 0x80, 0xF0, 0x10, 0xF0,
  0xF0, 0x80, 0xF0, 0x90, 0xF0,
  0xF0, 0x10, 0x20, 0x40, 0x40,
  0xF0, 0x90, 0xF0, 0x90, 0xF0,
  0xF0, 0x90, 0xF0, 0x10, 0xF0,
  0xF0, 0x90, 0xF0, 0x90, 0x90,
  0xE0, 0x90, 0xE0, 0x90, 0xE0,
  0xF0, 0x80, 0x80, 0x80, 0xF0,
  0xE0, 0x90, 0x90, 0x90, 0xE0,
  0xF0, 0x80, 0xF0, 0x80, 0xF0,
  0xF0, 0x80, 0xF0, 0x80, 0x80]

/-- The `struct Chip8` machine state. `mem` has 4096 bytes, `registers` 16,
`stack` 12 slots, `display` 32 rows of 8 bytes. -/
structure Chip8 where
  mem : List Nat
  registers : List Nat
  address_register : Nat
  pc : Nat
  stack : List Nat
  stack_pointer : Nat
  display : List (List Nat)
  current_key : Nat
  delay_timer : Nat
  sound_timer : Nat
  refresh_display : Bool
deriving DecidableEq, Repr

/-- The `enum Chip8Error`.  Note the source enum has exactly these three
variants: there is no stack-underflow and no out-of-bounds-memory variant. -/
inductive Chip8Error where
  | IllegalInstruction (opcode : Nat) (pc : Nat)
  | StackOverflow
  | UnknownMachineRoutine (nr : Nat)
deriving DecidableEq, Repr

/-- Outcome of running a `fn(&mut self, ...) -> Result<(), Chip8Error>`
method: normal completion with the mutated state, an `Err` return (the
mutations made before the error persist in the carried state), or a Rust
panic (index out of bounds, or checked-arithmetic overflow/underflow under
the debug profile). -/
inductive StepResult where
  | ok (st : Chip8)
  | err (st : Chip8) (e : Chip8Error)
  | panicked
deriving DecidableEq, Repr

/-- Models `dst[start..start + data.len()].copy_from_slice(&data)`:
panics (`none`) when the slice range exceeds the target. -/
def writeSlice (dst : List Nat) (start : Nat) (data : List Nat) : Option (List Nat) :=
  if start + data.length ≤ dst.length then
    some (dst.take start ++ data ++ dst.drop (start + data.length))
  else none

/-- `Chip8::new`: zeroed state, glyphs copied to `0x50..=0x9F`, program
copied to memory starting at 512, `pc` initialised to 512.  `none` models
the panic when `512 + program.len() > 4096`. -/
def Chip8.new (program : List Nat) : Option Chip8 := do
  let mem0 := List.replicate 4096 0
  let mem1 ← writeSlice mem0 0x50 SPRITE_FOR_CHARS
  let mem2 ← writeSlice mem1 512 program
  pure { mem := mem2
         registers := List.replicate 16 0
         address_register := 0
         pc := 512
         stack := List.replicate 12 0
         stack_pointer := 0
         display := List.replicate 32 (List.replicate 8 0)
         current_key := 0
         delay_timer := 0
         sound_timer := 0
         refresh_display := true }

/-- `self.registers[i]`.  Every register index the interpreter uses is a
masked nibble (`< 16`) and the register file has fixed length 16, so the
Rust indexing never panics; total access is faithful. -/
def Chip8.reg (st : Chip8) (i : Nat) : Nat := st.registers.getD i 0

/-- `self.registers[i] = v`. -/
def Chip8.setReg (st : Chip8) (i v : Nat) : Chip8 :=
  { st with registers := st.registers.set i v }

/-- `self.mem[i] = v`; `none` models the index-out-of-bounds panic. -/
def writeMem (mem : List Nat) (i v : Nat) : Option (List Nat) :=
  if i < mem.length then some (mem.set i v) else none

/-- Debug-profile `u8` addition (`a + b` panics when the sum exceeds 255). -/
def checkedAddU8 (a b : Nat) : Option Nat :=
  if a + b ≤ 255 then some (a + b) else none

/-- Debug-profile unsigned subtraction (`a - b` panics when `b > a`). -/
def checkedSub (a b : Nat) : Option Nat :=
  if b ≤ a then some (a - b) else none

/-- Debug-profile `u16` addition. -/
def checkedAddU16 (a b : Nat) : Option Nat :=
  if a + b ≤ 65535 then some (a + b) else none

/-- `call_machine_routine` (`0NNN`): always returns `UnknownMachineRoutine`
with the low 12 bits. -/
def call_machine_routine (opcode : Nat) (st : Chip8) : StepResult :=
  .err st (.UnknownMachineRoutine (opcode &&& 0x0FFF))

/-- `clear_display` (`00E0`): zeroes the display and marks it dirty. -/
def clear_display (st : Chip8) : StepResult :=
  .ok { st with display := List.replicate 32 (List.replicate 8 0), refresh_display := true }

/-- `subroutine_return` (`00EE`): `pc = stack[stack_pointer]` then
`stack_pointer -= 1`.  The read panics if `stack_pointer ≥ 12`; the
decrement underflows (panics) when `stack_pointer == 0`. -/
def subroutine_return (st : Chip8) : StepResult :=
  match st.stack[st.stack_pointer]? with
  | none => .panicked
  | some ret =>
    if st.stack_pointer = 0 then .panicked
    else .ok { st with pc := ret, stack_pointer := st.stack_pointer - 1 }

/-- `jump` (`1NNN`). -/
def jump (opcode : Nat) (st : Chip8) : StepResult :=
  .ok { st with pc := opcode &&& 0x0FFF }

/-- `call_subroutine` (`2NNN`): increments `stack_pointer` first, then
`stack.get_mut(stack_pointer).ok_or(StackOverflow)`; on `Err` the
increment has already happened. -/
def call_subroutine (opcode : Nat) (st : Chip8) : StepResult :=
  match checkedAddU8 st.stack_pointer 1 with
  | none => .panicked
  | some sp =>
    if sp < st.stack.length then
      .ok { st with stack := st.stack.set sp st.pc, stack_pointer := sp,
                    pc := opcode &&& 0x0FFF }
    else
      .err { st with stack_pointer := sp } .StackOverflow

/-- `skip_if_vx_eq_nn` (`3XNN`): the `if` body is empty in the source, so
the comparison has no effect on the state. -/
def skip_if_vx_eq_nn (opcode : Nat) (st : Chip8) : StepResult :=
  let register_number := (opcode &&& 0x0F00) >>> 8
  let register_value := st.reg register_number
  let number_in := opcode &&& 0x00FF
  .ok st

/-- `skip_if_vx_ne_nn` (`4XNN`): empty `if` body, no effect. -/
def skip_if_vx_ne_nn (opcode : Nat) (st : Chip8) : StepResult :=
  let register_number := (opcode &&& 0x0F00) >>> 8
  let register_value := st.reg register_number
  let number_in := opcode &&& 0x00FF
  .ok st

/-- `skip_if_vx_eq_vy` (`5XY0`): empty `if` body, no effect. -/
def skip_if_vx_eq_vy (opcode : Nat) (st : Chip8) : StepResult :=
  let vx := (opcode &&& 0x0F00) >>> 8
  let vy_number := (opcode &&& 0x00F0) >>> 4
  .ok st

/-- `set_vx_to_n` (`6XNN`). -/
def set_vx_to_n (opcode : Nat) (st : Chip8) : StepResult :=
  let vx := (opcode &&& 0x0F00) >>> 8
  .ok (st.setReg vx (opcode &&& 0x00FF))

/-- `add_n_to_vx` (`7XNN`): `registers[vx] += n` with no carry handling;
panics on `u8` overflow under the debug profile. -/
def add_n_to_vx (opcode : Nat) (st : Chip8) : StepResult :=
  let vx := (opcode &&& 0x0F00) >>> 8
  match checkedAddU8 (st.reg vx) (opcode &&& 0x00FF) with
  | none => .panicked
  | some v => .ok (st.setReg vx v)

/-- `set_vx_to_vy` (`8XY0`). -/
def set_vx_to_vy (opcode : Nat) (st : Chip8) : StepResult :=
  let vx := (opcode &&& 0x0F00) >>> 8
  let vy_number := (opcode &&& 0x00F0) >>> 4
  .ok (st.setReg vx (st.reg vy_number))

/-- `set_vx_to_vx_bitor_vy` (`8XY1`). -/
def set_vx_to_vx_bitor_vy (opcode : Nat) (st : Chip8) : StepResult :=
  let vx := (opcode &&& 0x0F00) >>> 8
  let vy := (opcode &&& 0x00F0) >>> 4
  .ok (st.setReg vx (st.reg vx ||| st.reg vy))

/-- `set_vx_to_vx_bitand_vy` (`8XY2`). -/
def set_vx_to_vx_bitand_vy (opcode : Nat) (st : Chip8) : StepResult :=
  let vx := (opcode &&& 0x0F00) >>> 8
  let vy := (opcode &&& 0x00F0) >>> 4
  .ok (st.setReg vx (st.reg vx &&& st.reg vy))

/-- `set_vx_to_vx_xor_vy` (`8XY3`). -/
def set_vx_to_vx_xor_vy (opcode : Nat) (st : Chip8) : StepResult :=
  let vx := (opcode &&& 0x0F00) >>> 8
  let vy := (opcode &&& 0x00F0) >>> 4
  .ok (st.setReg vx (st.reg vx ^^^ st.reg vy))

/-- `add_vy_to_vx` (`8XY4`): plain `registers[vx] += registers[vy]`.
No write to register 15 at all; panics on `u8` overflow under the debug
profile (wraps silently in release, still without touching register 15). -/
def add_vy_to_vx (opcode : Nat) (st : Chip8) : StepResult :=
  let vx := (opcode &&& 0x0F00) >>> 8
  let vy := (opcode &&& 0x00F0) >>> 4
  match checkedAddU8 (st.reg vx) (st.reg vy) with
  | none => .panicked
  | some v => .ok (st.setReg vx v)

/-- `subtract_vy_from_vx` (`8XY5`): plain `-=`, no borrow flag. -/
def subtract_vy_from_vx (opcode : Nat) (st : Chip8) : StepResult :=
  let vx := (opcode &&& 0x0F00) >>> 8
  let vy := (opcode &&& 0x00F0) >>> 4
  match checkedSub (st.reg vx) (st.reg vy) with
  | none => .panicked
  | some v => .ok (st.setReg vx v)

/-- `right_shift_vx` (`8XY6`): writes the flag to register 15 FIRST, then
shifts `registers[vx]`; when `vx = 15` the shift clobbers the flag. -/
def right_shift_vx (opcode : Nat) (st : Chip8) : StepResult :=
  let vx := (opcode &&& 0x0F00) >>> 8
  let st1 := st.setReg 0xF (st.reg vx &&& 1)
  .ok (st1.setReg vx (st1.reg vx >>> 1))

/-- `set_vx_to_vy_minus_vx` (`8XY7`): plain subtraction, no borrow flag. -/
def set_vx_to_vy_minus_vx (opcode : Nat) (st : Chip8) : StepResult :=
  let vx := (opcode &&& 0x0F00) >>> 8
  let vy := (opcode &&& 0x00F0) >>> 4
  match checkedSub (st.reg vy) (st.reg vx) with
  | none => .panicked
  | some v => .ok (st.setReg vx v)

/-- `left_shift_vx` (`8XYE`): flag written first, then the shift
(`<<= 1` on `u8` truncates to 8 bits and never panics). -/
def left_shift_vx (opcode : Nat) (st : Chip8) : StepResult :=
  let vx := (opcode &&& 0x0F00) >>> 8
  let st1 := st.setReg 0xF ((st.reg vx &&& 0x80) >>> 7)
  .ok (st1.setReg vx ((st1.reg vx <<< 1) % 256))

/-- `skip_if_vx_ne_vy` (`9XY0`): empty `if` body, no effect. -/
def skip_if_vx_ne_vy (opcode : Nat) (st : Chip8) : StepResult :=
  let vx := (opcode &&& 0x0F00) >>> 8
  let vy_number := (opcode &&& 0x00F0) >>> 4
  .ok st

/-- `set_i_addr_to_n` (`ANNN`). -/
def set_i_addr_to_n (opcode : Nat) (st : Chip8) : StepResult :=
  .ok { st with address_register := opcode &&& 0x0FFF }

/-- `jump_to_n_plus_v0` (`BNNN`): `pc = (registers[0] as u16 + n) as usize`. -/
def jump_to_n_plus_v0 (opcode : Nat) (st : Chip8) : StepResult :=
  match checkedAddU16 (st.reg 0) (opcode &&& 0x0FFF) with
  | none => .panicked
  | some v => .ok { st with pc := v }

/-- `set_to_vx_rand_bitand_n` (`CXNN`): pseudo-random source is
`pc + current_key + stack_pointer`, truncated to `u8` and masked with `n`. -/
def set_to_vx_rand_bitand_n (opcode : Nat) (st : Chip8) : StepResult :=
  let vx := (opcode &&& 0x0F00) >>> 8
  let n := opcode &&& 0x00FF
  let rand := st.pc + st.current_key + st.stack_pointer
  .ok (st.setReg vx ((rand % 256) &&& n))

/-- The closure `pixel_from_u8`: extracts bit `7 - bit` (most significant
bit first). -/
def pixel_from_u8 (byte : Nat) (bit : Nat) : Bool :=
  (byte >>> (7 - bit)) &&& 1 == 1

/-- The closure `merge_pixel_into_u8`: clears bit `7 - bit` then ORs the
pixel in.  `!mask` on a `u8` is the complement within 8 bits, i.e.
`mask ^^^ 0xFF`. -/
def merge_pixel_into_u8 (byte : Nat) (bit : Nat) (pixel : Bool) : Nat :=
  let p : Nat := if pixel then 1 else 0
  let mask : Nat := 1 <<< (7 - bit)
  (byte &&& (mask ^^^ 0xFF)) ||| (p <<< (7 - bit))

/-- Body of the inner `for col in 0..8` loop of the draw instruction; the
accumulator carries the display and the collision flag register value. -/
def drawCol (x y row sprite : Nat) (acc : List (List Nat) × Nat) (col : Nat) :
    Option (List (List Nat) × Nat) :=
  let local_x := ((x + col) % 64) / 8
  let local_y := (y + row) % 32
  match acc.1[local_y]? with
  | none => none
  | some rowBytes =>
    match rowBytes[local_x]? with
    | none => none
    | some cell =>
      let s := pixel_from_u8 sprite col
      let old_display_pixel := pixel_from_u8 cell ((x + col) % 8)
      let new_display_pixel := xor old_display_pixel s
      let newCell := merge_pixel_into_u8 cell ((x + col) % 8) new_display_pixel
      let flip_from_set_to_unset := old_display_pixel && !new_display_pixel
      some (acc.1.set local_y (rowBytes.set local_x newCell),
            acc.2 ||| (if flip_from_set_to_unset then 1 else 0))

/-- One iteration of the outer `for row in 0..height` loop (after the
sprite byte has been fetched from memory). -/
def drawRow (x y sprite row : Nat) (acc : List (List Nat) × Nat) :
    Option (List (List Nat) × Nat) :=
  (List.range 8).foldlM (drawCol x y row sprite) acc

/-- `draw_sprite_at_coordinates_vx_vy_with_height_n` (`DXYN`).  The
collision flag starts at 0 and is only ever ORed into during the loops, so
accumulating it and writing it once at the end is state-equivalent to the
source's in-place `registers[0xF] |= ...`. -/
def draw_sprite_at_coordinates_vx_vy_with_height_n (opcode : Nat) (st : Chip8) : StepResult :=
  let height := opcode &&& 0x000F
  let register_vx := (opcode &&& 0x0F00) >>> 8
  let register_vy := (opcode &&& 0x00F0) >>> 4
  let x := st.reg register_vx % 64
  let y := st.reg register_vy % 32
  match (List.range height).foldlM (fun acc row =>
      match st.mem[st.address_register + row]? with
      | none => none
      | some sprite => drawRow x y sprite row acc) (st.display, 0) with
  | none => .panicked
  | some (d, vf) => .ok { st.setReg 0xF vf with display := d, refresh_display := true }

/-- `skip_if_key_in_vk_pressed` (`EX9E`): empty `if` body, no effect. -/
def skip_if_key_in_vk_pressed (opcode : Nat) (st : Chip8) : StepResult :=
  let vx := (opcode &&& 0x0F00) >>> 8
  .ok st

/-- `skip_if_key_in_vk_not_pressed` (`EXA1`): empty `if` body, no effect. -/
def skip_if_key_in_vk_not_pressed (opcode : Nat) (st : Chip8) : StepResult :=
  let vx := (opcode &&& 0x0F00) >>> 8
  .ok st

/-- `set_vx_to_delay_timer` (`FX07`). -/
def set_vx_to_delay_timer (opcode : Nat) (st : Chip8) : StepResult :=
  let vx := (opcode &&& 0x0F00) >>> 8
  .ok (st.setReg vx st.delay_timer)

/-- `wait_for_key_press_and_store_in_vx` (`FX0A`): stores the first byte of
the line read from stdin; `line.as_bytes()[0]` panics on an empty line. -/
def wait_for_key_press_and_store_in_vx (input : List Nat) (opcode : Nat) (st : Chip8) :
    StepResult :=
  let vx := (opcode &&& 0x0F00) >>> 8
  match input[0]? with
  | none => .panicked
  | some b => .ok (st.setReg vx b)

/-- `set_delay_timer_to_vx` (`FX15`). -/
def set_delay_timer_to_vx (opcode : Nat) (st : Chip8) : StepResult :=
  let vx := (opcode &&& 0x0F00) >>> 8
  .ok { st with delay_timer := st.reg vx }

/-- `set_sound_timer_to_vx` (`FX18`). -/
def set_sound_timer_to_vx (opcode : Nat) (st : Chip8) : StepResult :=
  let vx := (opcode &&& 0x0F00) >>> 8
  .ok { st with sound_timer := st.reg vx }

/-- `add_vx_to_i` (`FX1E`): `u16` addition, panics on overflow under the
debug profile. -/
def add_vx_to_i (opcode : Nat) (st : Chip8) : StepResult :=
  let vx := (opcode &&& 0x0F00) >>> 8
  match checkedAddU16 st.address_register (st.reg vx) with
  | none => .panicked
  | some v => .ok { st with address_register := v }

/-- `set_i_to_sprite_addr` (`FX29`): `I = registers[vx] * 5`.  The `as u16`
cast is the identity since the value is at most `255 * 5`.  Note: no
`0x50` base offset and no masking of the register value to a nibble. -/
def set_i_to_sprite_addr (opcode : Nat) (st : Chip8) : StepResult :=
  let vx := (opcode &&& 0x0F00) >>> 8
  let sprite_addr := st.reg vx * 5
  .ok { st with address_register := sprite_addr }

/-- `store_bcd_in_mem` (`FX33`): three direct memory writes at
`I`, `I + 1`, `I + 2`; each panics when out of bounds. -/
def store_bcd_in_mem (opcode : Nat) (st : Chip8) : StepResult :=
  let vx := (opcode &&& 0x0F00) >>> 8
  let vx_val := st.reg vx
  match writeMem st.mem st.address_register (vx_val / 100) with
  | none => .panicked
  | some m1 =>
    match writeMem m1 (st.address_register + 1) ((vx_val % 100) / 10) with
    | none => .panicked
    | some m2 =>
      match writeMem m2 (st.address_register + 2) (vx_val % 10) with
      | none => .panicked
      | some m3 => .ok { st with mem := m3 }

/-- `store_v0_to_vx_in_mem` (`FX55`): `for i in 0..=vx { mem[I + i] = registers[i] }`. -/
def store_v0_to_vx_in_mem (opcode : Nat) (st : Chip8) : StepResult :=
  let vx := (opcode &&& 0x0F00) >>> 8
  match (List.range (vx + 1)).foldlM
      (fun m i => writeMem m (st.address_register + i) (st.registers.getD i 0)) st.mem with
  | none => .panicked
  | some m => .ok { st with mem := m }

/-- `load_v0_to_vx_from_mem` (`FX65`): `for i in 0..=vx { registers[i] = mem[I + i] }`. -/
def load_v0_to_vx_from_mem (opcode : Nat) (st : Chip8) : StepResult :=
  let vx := (opcode &&& 0x0F00) >>> 8
  match (List.range (vx + 1)).foldlM
      (fun regs i =>
        match st.mem[st.address_register + i]? with
        | none => none
        | some v => some (regs.set i v)) st.registers with
  | none => .panicked
  | some regs => .ok { st with registers := regs }

/-- The dispatch `match` of `exec_instruction` (after the fetch and the
`pc += 2`): primary dispatch on the top nibble, with the source's
secondary dispatches for families `0x0`, `0x8`, `0xE`, `0xF`. -/
def dispatch (input : List Nat) (opcode : Nat) (st : Chip8) : StepResult :=
  match (opcode &&& 0xF000) >>> 12 with
    | 0x0 =>
      match opcode &&& 0x00FF with
      | 0x00 => call_machine_routine opcode st
      | 0xE0 => clear_display st
      | 0xEE => subroutine_return st
      | _ => .err st (.IllegalInstruction opcode st.pc)
    | 0x1 => jump opcode st
    | 0x2 => call_subroutine opcode st
    | 0x3 => skip_if_vx_eq_nn opcode st
    | 0x4 => skip_if_vx_ne_nn opcode st
    | 0x5 => skip_if_vx_eq_vy opcode st
    | 0x6 => set_vx_to_n opcode st
    | 0x7 => add_n_to_vx opcode st
    | 0x8 =>
      match opcode &&& 0x000F with
      | 0x0 => set_vx_to_vy opcode st
      | 0x1 => set_vx_to_vx_bitor_vy opcode st
      | 0x2 => set_vx_to_vx_bitand_vy opcode st
      | 0x3 => set_vx_to_vx_xor_vy opcode st
      | 0x4 => add_vy_to_vx opcode st
      | 0x5 => subtract_vy_from_vx opcode st
      | 0x6 => right_shift_vx opcode st
      | 0x7 => set_vx_to_vy_minus_vx opcode st
      | 0xE => left_shift_vx opcode st
      | _ => .err st (.IllegalInstruction opcode st.pc)
    | 0x9 => skip_if_vx_ne_vy opcode st
    | 0xA => set_i_addr_to_n opcode st
    | 0xB => jump_to_n_plus_v0 opcode st
    | 0xC => set_to_vx_rand_bitand_n opcode st
    | 0xD => draw_sprite_at_coordinates_vx_vy_with_height_n opcode st
    | 0xE =>
      match opcode &&& 0x00FF with
      | 0x9E => skip_if_key_in_vk_pressed opcode st
      | 0xA1 => skip_if_key_in_vk_not_pressed opcode st
      | _ => .err st (.IllegalInstruction opcode st.pc)
    | 0xF =>
      match opcode &&& 0x00FF with
      | 0x07 => set_vx_to_delay_timer opcode st
      | 0x0A => wait_for_key_press_and_store_in_vx input opcode st
      | 0x15 => set_delay_timer_to_vx opcode st
      | 0x18 => set_sound_timer_to_vx opcode st
      | 0x1E => add_vx_to_i opcode st
      | 0x29 => set_i_to_sprite_addr opcode st
      | 0x33 => store_bcd_in_mem opcode st
      | 0x55 => store_v0_to_vx_in_mem opcode st
      | 0x65 => load_v0_to_vx_from_mem opcode st
      | _ => .err st (.IllegalInstruction opcode st.pc)
    | _ => .err st (.IllegalInstruction opcode st.pc)

/-- `exec_instruction`: clears `refresh_display`, fetches two bytes
big-endian at `pc` (panicking when `pc + 1` is out of bounds — the
clearing of `refresh_display` before the fetch is unobservable on a panic
since the process aborts), advances `pc` by 2, then dispatches. -/
def exec_instruction (input : List Nat) (st0 : Chip8) : StepResult :=
  match st0.mem[st0.pc]?, st0.mem[st0.pc + 1]? with
  | some upper, some lower =>
    dispatch input (upper * 256 + lower)
      { st0 with refresh_display := false, pc := st0.pc + 2 }
  | _, _ => .panicked

/-- Iterate `exec_instruction`; stops at the first error or panic (the run
aborts there in the source). -/
def runSteps (input : List Nat) : Nat → StepResult → StepResult
  | 0, r => r
  | n + 1, .ok st => runSteps input n (exec_instruction input st)
  | _ + 1, .err st e => .err st e
  | _ + 1, .panicked => .panicked

/-- Construct the machine from a program image and execute `n` instructions
(with empty stdin input). -/
def runProgram (program : List Nat) (n : Nat) : StepResult :=
  match Chip8.new program with
  | some st => runSteps [] n (.ok st)
  | none => .panicked

/-- Program counter of a normally completed step. -/
def StepResult.pcOf : StepResult → Option Nat
  | .ok st => some st.pc
  | _ => none

/-- Register `i` of a normally completed step. -/
def StepResult.regOf (r : StepResult) (i : Nat) : Option Nat :=
  match r with
  | .ok st => st.registers[i]?
  | _ => none

/-- Address register of a normally completed step. -/
def StepResult.iOf : StepResult → Option Nat
  | .ok st => some st.address_register
  | _ => none

/-- The error of a step that returned `Err`. -/
def StepResult.errOf : StepResult → Option Chip8Error
  | .err _ e => some e
  | _ => none

def StepResult.isOk : StepResult → Bool
  | .ok _ => true
  | _ => false

/-- Pixel at column `px` of row `py` of the packed display
(`display[y][x / 8]`, most significant bit leftmost). -/
def pixAt (d : List (List Nat)) (py px : Nat) : Bool :=
  pixel_from_u8 ((d.getD py []).getD (px / 8) 0) (px % 8)

/-- Memory byte `i` of a normally completed step. -/
def StepResult.memOf (r : StepResult) (i : Nat) : Option Nat :=
  match r with
  | .ok st => st.mem[i]?
  | _ => none

/-- The display has its fixed `[[u8; 8]; 32]` shape: 32 rows of 8 bytes. -/
def DisplayShape (d : List (List Nat)) : Prop :=
  d.length = 32 ∧ ∀ i, i < 32 → (d.getD i []).length = 8

instance (d : List (List Nat)) : Decidable (DisplayShape d) := by
  unfold DisplayShape; infer_instance

/-- The memory contents right after `Chip8::new` has copied the glyph table
in and before the program is copied: zeros except `SPRITE_FOR_CHARS` at
`0x50..=0x9F`. -/
def baseMem : List Nat :=
  (List.replicate 4096 0).take 0x50 ++ SPRITE_FOR_CHARS ++ (List.replicate 4096 0).drop 0xA0

/-- The memory produced by `Chip8::new` for a program image `p`:
`baseMem` with `p` spliced in at 512. -/
def progMem (p : List Nat) : List Nat :=
  baseMem.take 512 ++ p ++ baseMem.drop (512 + p.length)

/-- The machine state `Chip8::new` returns (when the program fits). -/
def newState (p : List Nat) : Chip8 :=
  { mem := progMem p
    registers := List.replicate 16 0
    address_register := 0
    pc := 512
    stack := List.replicate 12 0
    stack_pointer := 0
    display := List.replicate 32 (List.replicate 8 0)
    current_key := 0
    delay_timer := 0
    sound_timer := 0
    refresh_display := true }

/-- A small explicit machine state used to instantiate theorems that
quantify over states. -/
def mkState (mem regs : List Nat) (pc : Nat) : Chip8 :=
  { mem := mem
    registers := regs
    address_register := 0
    pc := pc
    stack := List.replicate 12 0
    stack_pointer := 0
    display := List.replicate 32 (List.replicate 8 0)
    current_key := 0
    delay_timer := 0
    sound_timer := 0
    refresh_display := false }

/-- Intermediate state of a run started from `Chip8.new p`: program memory,
given register file and program counter, everything else still at its
initial value (and `refresh_display` cleared by the last step). -/
def midState (p regs : List Nat) (pc : Nat) : Chip8 :=
  { mem := progMem p
    registers := regs
    address_register := 0
    pc := pc
    stack := List.replicate 12 0
    stack_pointer := 0
    display := List.replicate 32 (List.replicate 8 0)
    current_key := 0
    delay_timer := 0
    sound_timer := 0
    refresh_display := false }

/-- Like `midState` but with the address register set. -/
def midStateI (p regs : List Nat) (i pc : Nat) : Chip8 :=
  { midState p regs pc with address_register := i }

/-- Pixel `(py, px)` of the display of a normally completed step. -/
def StepResult.pixOf (r : StepResult) (py px : Nat) : Option Bool :=
  match r with
  | .ok st => some (pixAt st.display py px)
  | _ => none

/-!  ## Theorems  -/

/-- `SPRITE_FOR_CHARS` has the 80 bytes of the 16 five-byte glyphs. -/
theorem sprite_len : SPRITE_FOR_CHARS.length = 80 := rfl

theorem length_baseMem : baseMem.length = 4096 := by
  unfold baseMem
  rw [List.length_append, List.length_append, List.length_take, List.length_drop,
    List.length_replicate, sprite_len]
  omega

/-- The first `copy_from_slice` of `Chip8::new` (the glyph copy). -/
theorem writeSlice_base :
    writeSlice (List.replicate 4096 0) 0x50 SPRITE_FOR_CHARS = some baseMem := by
  simp only [writeSlice, List.length_replicate, sprite_len]
  norm_num [baseMem]

/-- The second `copy_from_slice` of `Chip8::new` (the program copy). -/
theorem writeSlice_prog (p : List Nat) :
    writeSlice baseMem 512 p =
      if 512 + p.length ≤ 4096 then some (progMem p) else none := by
  simp only [writeSlice, length_baseMem, progMem]

/-- `Chip8::new` succeeds exactly when the program fits below 4096. -/
theorem new_eq (p : List Nat) :
    Chip8.new p = if 512 + p.length ≤ 4096 then some (newState p) else none := by
  by_cases h : 512 + p.length ≤ 4096 <;>
    simp only [Chip8.new, writeSlice_base, writeSlice_prog, if_pos, if_neg, h, if_true,
      if_false, bind_pure_comp, Option.bind_eq_bind, Option.some_bind, Option.none_bind,
      Option.map_some, ite_true, ite_false, Option.map_none] <;>
    rfl

theorem new_some (p : List Nat) (h : p.length ≤ 3584) :
    Chip8.new p = some (newState p) := by
  rw [new_eq, if_pos (by omega)]

theorem take_baseMem_length : (baseMem.take 512).length = 512 := by
  rw [List.length_take, length_baseMem]
  omega

theorem length_progMem (p : List Nat) (h : p.length ≤ 3584) :
    (progMem p).length = 4096 := by
  unfold progMem
  rw [List.length_append, List.length_append, take_baseMem_length, List.length_drop,
    length_baseMem]
  omega

/-- Reading the program region of `progMem`. -/
theorem progMem_get_mid (p : List Nat) (k : Nat) (h1 : 512 ≤ k)
    (h2 : k < 512 + p.length) :
    (progMem p)[k]? = p[k - 512]? := by
  unfold progMem
  rw [List.getElem?_append_left (by rw [List.length_append, take_baseMem_length]; omega)]
  rw [List.getElem?_append_right (by rw [take_baseMem_length]; omega)]
  rw [take_baseMem_length]

/-- Reading the reserved interpreter region of `progMem`. -/
theorem progMem_get_low (p : List Nat) (k : Nat) (h : k < 512) :
    (progMem p)[k]? = baseMem[k]? := by
  unfold progMem
  rw [List.getElem?_append_left (by rw [List.length_append, take_baseMem_length]; omega)]
  rw [List.getElem?_append_left (by rw [take_baseMem_length]; omega)]
  exact List.getElem?_take_of_lt h

theorem take_glyph_length : ((List.replicate 4096 (0 : Nat)).take 0x50).length = 0x50 := by
  rw [List.length_take, List.length_replicate]
  omega

/-- The first byte of the glyph for digit 0, as copied by `Chip8::new`,
sits at address `0x50` and is `0xF0`. -/
theorem baseMem_glyph0 : baseMem[0x50]? = some 0xF0 := by
  unfold baseMem
  rw [List.getElem?_append_left
    (by rw [List.length_append, take_glyph_length, sprite_len]; omega)]
  rw [List.getElem?_append_right (by rw [take_glyph_length])]
  rw [take_glyph_length]
  rfl

/-- Reading byte `i` of the program image through `progMem`. -/
theorem progMem_byte (p : List Nat) (i b : Nat) (hb : p[i]? = some b)
    (hi : i < p.length) :
    (progMem p)[512 + i]? = some b := by
  rw [progMem_get_mid _ _ (by omega) (by omega), Nat.add_sub_cancel_left]
  exact hb

/-- Unfolding one fetch-dispatch step when the two instruction bytes at
the program counter are known. -/
theorem exec_eq_dispatch (input : List Nat) (st : Chip8) (b1 b2 : Nat)
    (h1 : st.mem[st.pc]? = some b1) (h2 : st.mem[st.pc + 1]? = some b2) :
    exec_instruction input st =
      dispatch input (b1 * 256 + b2)
        { st with refresh_display := false, pc := st.pc + 2 } := by
  unfold exec_instruction
  rw [h1, h2]

theorem runSteps_zero (input : List Nat) (r : StepResult) :
    runSteps input 0 r = r := rfl

theorem runSteps_succ_ok (input : List Nat) (n : Nat) (st : Chip8) :
    runSteps input (n + 1) (.ok st) = runSteps input n (exec_instruction input st) := rfl

/-- One full step of `runSteps` from a state whose instruction bytes and
dispatch outcome are known. -/
theorem runSteps_step (input : List Nat) (n : Nat) (st : Chip8) (b1 b2 : Nat)
    (r : StepResult)
    (h1 : st.mem[st.pc]? = some b1) (h2 : st.mem[st.pc + 1]? = some b2)
    (hd : dispatch input (b1 * 256 + b2)
      { st with refresh_display := false, pc := st.pc + 2 } = r) :
    runSteps input (n + 1) (.ok st) = runSteps input n r := by
  rw [runSteps_succ_ok, exec_eq_dispatch input st b1 b2 h1 h2, hd]

/-- C1: the four conditional-skip handlers have empty `if` bodies, so even
when the tested condition is true the program counter only advances by the
normal 2 bytes, never by 4.  Four runs, one per skip flavour, each with the
condition true: `3XNN` after `V0 := 5` (equal immediate), `4XNN` with
`V0 = 0 ≠ 1`, `5XY0` with `V0 = V1 = 0`, `9XY0` after `V0 := 5 ≠ V1 = 0`.
Each run ends 2 bytes after its skip instruction instead of 4. -/
theorem c1_skip_instructions_do_not_skip :
    (runProgram [0x60, 5, 0x30, 5] 2).pcOf = some 516 ∧
    (runProgram [0x40, 1] 1).pcOf = some 514 ∧
    (runProgram [0x50, 0x10] 1).pcOf = some 514 ∧
    (runProgram [0x60, 5, 0x90, 0x10] 2).pcOf = some 516 ∧
    (516 : Nat) ≠ 518 ∧ (514 : Nat) ≠ 516 := by
  refine ⟨?_, ?_, ?_, ?_, by decide, by decide⟩
  · unfold runProgram
    rw [new_some _ (by decide)]
    show (runSteps [] 2 (.ok (newState [0x60, 5, 0x30, 5]))).pcOf = some 516
    rw [runSteps_step [] 1 (newState [0x60, 5, 0x30, 5]) 0x60 0x05
      (.ok (midState [0x60, 5, 0x30, 5] [5, 0, 0, 0, 0, 0, 0, 0, 0, 0, 0, 0, 0, 0, 0, 0] 514))
      (progMem_byte _ 0 0x60 rfl (by decide)) (progMem_byte _ 1 0x05 rfl (by decide)) rfl]
    rw [runSteps_step [] 0
      (midState [0x60, 5, 0x30, 5] [5, 0, 0, 0, 0, 0, 0, 0, 0, 0, 0, 0, 0, 0, 0, 0] 514)
      0x30 0x05
      (.ok (midState [0x60, 5, 0x30, 5] [5, 0, 0, 0, 0, 0, 0, 0, 0, 0, 0, 0, 0, 0, 0, 0] 516))
      (progMem_byte _ 2 0x30 rfl (by decide)) (progMem_byte _ 3 0x05 rfl (by decide)) rfl]
    rfl
  · unfold runProgram
    rw [new_some _ (by decide)]
    show (runSteps [] 1 (.ok (newState [0x40, 1]))).pcOf = some 514
    rw [runSteps_step [] 0 (newState [0x40, 1]) 0x40 0x01
      (.ok (midState [0x40, 1] (List.replicate 16 0) 514))
      (progMem_byte _ 0 0x40 rfl (by decide)) (progMem_byte _ 1 0x01 rfl (by decide)) rfl]
    rfl
  · unfold runProgram
    rw [new_some _ (by decide)]
    show (runSteps [] 1 (.ok (newState [0x50, 0x10]))).pcOf = some 514
    rw [runSteps_step [] 0 (newState [0x50, 0x10]) 0x50 0x10
      (.ok (midState [0x50, 0x10] (List.replicate 16 0) 514))
      (progMem_byte _ 0 0x50 rfl (by decide)) (progMem_byte _ 1 0x10 rfl (by decide)) rfl]
    rfl
  · unfold runProgram
    rw [new_some _ (by decide)]
    show (runSteps [] 2 (.ok (newState [0x60, 5, 0x90, 0x10]))).pcOf = some 516
    rw [runSteps_step [] 1 (newState [0x60, 5, 0x90, 0x10]) 0x60 0x05
      (.ok (midState [0x60, 5, 0x90, 0x10] [5, 0, 0, 0, 0, 0, 0, 0, 0, 0, 0, 0, 0, 0, 0, 0] 514))
      (progMem_byte _ 0 0x60 rfl (by decide)) (progMem_byte _ 1 0x05 rfl (by decide)) rfl]
    rw [runSteps_step [] 0
      (midState [0x60, 5, 0x90, 0x10] [5, 0, 0, 0, 0, 0, 0, 0, 0, 0, 0, 0, 0, 0, 0, 0] 514)
      0x90 0x10
      (.ok (midState [0x60, 5, 0x90, 0x10] [5, 0, 0, 0, 0, 0, 0, 0, 0, 0, 0, 0, 0, 0, 0, 0] 516))
      (progMem_byte _ 2 0x90 rfl (by decide)) (progMem_byte _ 3 0x10 rfl (by decide)) rfl]
    rfl

/-- C2: `add_vy_to_vx` is a plain `+=` with no carry handling.  With
`V0 = 200`, `V1 = 100` the instruction `8014` panics on `u8` overflow
(debug profile) instead of wrapping to 44 with `VF = 1`; and in the
carry-free case `V0 = 1`, `V1 = 2` with `VF` previously 7 it leaves
`VF = 7` instead of clearing it to 0 (the sum itself is correct). -/
theorem c2_add_vy_to_vx_no_carry_flag :
    runProgram [0x60, 200, 0x61, 100, 0x80, 0x14] 3 = .panicked ∧
    (runProgram [0x6F, 7, 0x60, 1, 0x61, 2, 0x80, 0x14] 4).regOf 15 = some 7 ∧
    (runProgram [0x6F, 7, 0x60, 1, 0x61, 2, 0x80, 0x14] 4).regOf 0 = some 3 ∧
    some (7 : Nat) ≠ some 0 := by
  have hB : runProgram [0x6F, 7, 0x60, 1, 0x61, 2, 0x80, 0x14] 4 =
      .ok (midState [0x6F, 7, 0x60, 1, 0x61, 2, 0x80, 0x14]
        [3, 2, 0, 0, 0, 0, 0, 0, 0, 0, 0, 0, 0, 0, 0, 7] 520) := by
    unfold runProgram
    rw [new_some _ (by decide)]
    show runSteps [] 4 (.ok (newState [0x6F, 7, 0x60, 1, 0x61, 2, 0x80, 0x14])) = _
    rw [runSteps_step [] 3 (newState [0x6F, 7, 0x60, 1, 0x61, 2, 0x80, 0x14]) 0x6F 7
      (.ok (midState [0x6F, 7, 0x60, 1, 0x61, 2, 0x80, 0x14]
        [0, 0, 0, 0, 0, 0, 0, 0, 0, 0, 0, 0, 0, 0, 0, 7] 514))
      (progMem_byte _ 0 0x6F rfl (by decide)) (progMem_byte _ 1 7 rfl (by decide)) rfl]
    rw [runSteps_step [] 2
      (midState [0x6F, 7, 0x60, 1, 0x61, 2, 0x80, 0x14]
        [0, 0, 0, 0, 0, 0, 0, 0, 0, 0, 0, 0, 0, 0, 0, 7] 514) 0x60 1
      (.ok (midState [0x6F, 7, 0x60, 1, 0x61, 2, 0x80, 0x14]
        [1, 0, 0, 0, 0, 0, 0, 0, 0, 0, 0, 0, 0, 0, 0, 7] 516))
      (progMem_byte _ 2 0x60 rfl (by decide)) (progMem_byte _ 3 1 rfl (by decide)) rfl]
    rw [runSteps_step [] 1
      (midState [0x6F, 7, 0x60, 1, 0x61, 2, 0x80, 0x14]
        [1, 0, 0, 0, 0, 0, 0, 0, 0, 0, 0, 0, 0, 0, 0, 7] 516) 0x61 2
      (.ok (midState [0x6F, 7, 0x60, 1, 0x61, 2, 0x80, 0x14]
        [1, 2, 0, 0, 0, 0, 0, 0, 0, 0, 0, 0, 0, 0, 0, 7] 518))
      (progMem_byte _ 4 0x61 rfl (by decide)) (progMem_byte _ 5 2 rfl (by decide)) rfl]
    rw [runSteps_step [] 0
      (midState [0x6F, 7, 0x60, 1, 0x61, 2, 0x80, 0x14]
        [1, 2, 0, 0, 0, 0, 0, 0, 0, 0, 0, 0, 0, 0, 0, 7] 518) 0x80 0x14
      (.ok (midState [0x6F, 7, 0x60, 1, 0x61, 2, 0x80, 0x14]
        [3, 2, 0, 0, 0, 0, 0, 0, 0, 0, 0, 0, 0, 0, 0, 7] 520))
      (progMem_byte _ 6 0x80 rfl (by decide)) (progMem_byte _ 7 0x14 rfl (by decide)) rfl]
    rfl
  refine ⟨?_, by rw [hB]; rfl, by rw [hB]; rfl, by decide⟩
  unfold runProgram
  rw [new_some _ (by decide)]
  show runSteps [] 3 (.ok (newState [0x60, 200, 0x61, 100, 0x80, 0x14])) = .panicked
  rw [runSteps_step [] 2 (newState [0x60, 200, 0x61, 100, 0x80, 0x14]) 0x60 200
    (.ok (midState [0x60, 200, 0x61, 100, 0x80, 0x14]
      [200, 0, 0, 0, 0, 0, 0, 0, 0, 0, 0, 0, 0, 0, 0, 0] 514))
    (progMem_byte _ 0 0x60 rfl (by decide)) (progMem_byte _ 1 200 rfl (by decide)) rfl]
  rw [runSteps_step [] 1
    (midState [0x60, 200, 0x61, 100, 0x80, 0x14]
      [200, 0, 0, 0, 0, 0, 0, 0, 0, 0, 0, 0, 0, 0, 0, 0] 514) 0x61 100
    (.ok (midState [0x60, 200, 0x61, 100, 0x80, 0x14]
      [200, 100, 0, 0, 0, 0, 0, 0, 0, 0, 0, 0, 0, 0, 0, 0] 516))
    (progMem_byte _ 2 0x61 rfl (by decide)) (progMem_byte _ 3 100 rfl (by decide)) rfl]
  rw [runSteps_step [] 0
    (midState [0x60, 200, 0x61, 100, 0x80, 0x14]
      [200, 100, 0, 0, 0, 0, 0, 0, 0, 0, 0, 0, 0, 0, 0, 0] 516) 0x80 0x14
    .panicked
    (progMem_byte _ 4 0x80 rfl (by decide)) (progMem_byte _ 5 0x14 rfl (by decide)) rfl]
  rfl

/-- C4: a `00EE` return with an empty stack reads `stack[0]` and then
evaluates `stack_pointer -= 1` on the `u8` value 0, which panics
(arithmetic underflow) — there is no `StackUnderflow` variant in
`Chip8Error` at all.  The second conjunct shows the part of the claim the
code does satisfy: a call from 0x200 to 0x208 followed by a return lands
back on 0x202, the instruction after the call. -/
theorem c4_return_on_empty_stack_panics :
    runProgram [0x00, 0xEE] 1 = .panicked ∧
    (runProgram [0x22, 0x08, 0, 0, 0, 0, 0, 0, 0x00, 0xEE] 2).pcOf = some 0x202 := by
  constructor
  · unfold runProgram
    rw [new_some _ (by decide)]
    show runSteps [] 1 (.ok (newState [0x00, 0xEE])) = .panicked
    rw [runSteps_step [] 0 (newState [0x00, 0xEE]) 0x00 0xEE .panicked
      (progMem_byte _ 0 0x00 rfl (by decide)) (progMem_byte _ 1 0xEE rfl (by decide)) rfl]
    rfl
  · unfold runProgram
    rw [new_some _ (by decide)]
    show (runSteps [] 2 (.ok (newState [0x22, 0x08, 0, 0, 0, 0, 0, 0, 0x00, 0xEE]))).pcOf =
      some 0x202
    rw [runSteps_step [] 1 (newState [0x22, 0x08, 0, 0, 0, 0, 0, 0, 0x00, 0xEE]) 0x22 0x08
      (.ok { midState [0x22, 0x08, 0, 0, 0, 0, 0, 0, 0x00, 0xEE] (List.replicate 16 0) 0x208 with
        stack := (List.replicate 12 0).set 1 514, stack_pointer := 1 })
      (progMem_byte _ 0 0x22 rfl (by decide)) (progMem_byte _ 1 0x08 rfl (by decide)) rfl]
    rw [runSteps_step [] 0
      { midState [0x22, 0x08, 0, 0, 0, 0, 0, 0, 0x00, 0xEE] (List.replicate 16 0) 0x208 with
        stack := (List.replicate 12 0).set 1 514, stack_pointer := 1 } 0x00 0xEE
      (.ok { midState [0x22, 0x08, 0, 0, 0, 0, 0, 0, 0x00, 0xEE] (List.replicate 16 0) 514 with
        stack := (List.replicate 12 0).set 1 514, stack_pointer := 0 })
      (progMem_byte _ 8 0x00 rfl (by decide)) (progMem_byte _ 9 0xEE rfl (by decide)) rfl]
    rfl

/-- C7: `set_i_to_sprite_addr` computes `I = registers[vx] * 5` with no
base offset, but `Chip8::new` copies the glyph table to `0x50..=0x9F`.
Executing `F029` with `V0 = 0` therefore sets `I = 0`, while the glyph for
digit 0 actually lives at `0x50` (its first byte `0xF0` is found there),
so the claimed address `0x50 + 5·(v mod 16)` is not what the code
produces. -/
theorem c7_sprite_addr_ignores_font_base :
    (runProgram [0xF0, 0x29] 1).iOf = some 0 ∧
    (Chip8.new []).bind (fun st => st.mem[0x50]?) = some 0xF0 ∧
    (0 : Nat) ≠ 0x50 + 5 * (0 % 16) := by
  refine ⟨?_, ?_, by decide⟩
  · unfold runProgram
    rw [new_some _ (by decide)]
    show (runSteps [] 1 (.ok (newState [0xF0, 0x29]))).iOf = some 0
    rw [runSteps_step [] 0 (newState [0xF0, 0x29]) 0xF0 0x29
      (.ok (midState [0xF0, 0x29] (List.replicate 16 0) 514))
      (progMem_byte _ 0 0xF0 rfl (by decide)) (progMem_byte _ 1 0x29 rfl (by decide)) rfl]
    rfl
  · rw [new_some _ (by decide)]
    show (progMem [])[0x50]? = some 0xF0
    rw [progMem_get_low _ _ (by omega), baseMem_glyph0]

/-- C3, counterexample: set `VF := 1`, then right-shift register 15
(`8F06`).  The pre-shift least-significant bit of `VF` is 1, so the claim
demands `VF = 1` afterwards, but the code writes the flag first and then
shifts register 15 itself, leaving `VF = 0`. -/
theorem c3_flag_clobbered_when_x_is_15 :
    (runProgram [0x6F, 1, 0x8F, 0x06] 2).regOf 15 = some 0 ∧
    some (0 : Nat) ≠ some 1 := by
  refine ⟨?_, by decide⟩
  unfold runProgram
  rw [new_some _ (by decide)]
  show (runSteps [] 2 (.ok (newState [0x6F, 1, 0x8F, 0x06]))).regOf 15 = some 0
  rw [runSteps_step [] 1 (newState [0x6F, 1, 0x8F, 0x06]) 0x6F 1
    (.ok (midState [0x6F, 1, 0x8F, 0x06]
      [0, 0, 0, 0, 0, 0, 0, 0, 0, 0, 0, 0, 0, 0, 0, 1] 514))
    (progMem_byte _ 0 0x6F rfl (by decide)) (progMem_byte _ 1 1 rfl (by decide)) rfl]
  rw [runSteps_step [] 0
    (midState [0x6F, 1, 0x8F, 0x06] [0, 0, 0, 0, 0, 0, 0, 0, 0, 0, 0, 0, 0, 0, 0, 1] 514)
    0x8F 0x06
    (.ok (midState [0x6F, 1, 0x8F, 0x06]
      [0, 0, 0, 0, 0, 0, 0, 0, 0, 0, 0, 0, 0, 0, 0, 0] 516))
    (progMem_byte _ 2 0x8F rfl (by decide)) (progMem_byte _ 3 0x06 rfl (by decide)) rfl]
  rfl

/-- C5, counterexample: executing `0xFFFF` placed at `pc = 0x200` yields
`IllegalInstruction` whose `pc` field is 0x202 — the counter has already
advanced past the fetched instruction — not the fetch address 0x200
required by the claim; the state's `pc` is likewise mutated to 0x202. -/
theorem c5_illegal_instruction_pc_already_advanced :
    (runProgram [0xFF, 0xFF] 1).errOf =
      some (.IllegalInstruction 0xFFFF 0x202) ∧
    (0x202 : Nat) ≠ 0x200 := by
  refine ⟨?_, by decide⟩
  unfold runProgram
  rw [new_some _ (by decide)]
  show (runSteps [] 1 (.ok (newState [0xFF, 0xFF]))).errOf =
    some (.IllegalInstruction 0xFFFF 0x202)
  rw [runSteps_step [] 0 (newState [0xFF, 0xFF]) 0xFF 0xFF
    (.err (midState [0xFF, 0xFF] (List.replicate 16 0) 514)
      (.IllegalInstruction 0xFFFF 514))
    (progMem_byte _ 0 0xFF rfl (by decide)) (progMem_byte _ 1 0xFF rfl (by decide)) rfl]
  rfl

/-- C6, counterexample: the word `0x0123` has leading nibble 0 and low
byte `0x23 ∉ {0xE0, 0xEE}`, so the claim demands
`UnknownMachineRoutine 0x123`; but the family-0 secondary dispatch only
routes low byte `0x00` to `call_machine_routine`, so `0x0123` fails with
`IllegalInstruction` instead. -/
theorem c6_nonzero_low_byte_gives_illegal_instruction :
    (runProgram [0x01, 0x23] 1).errOf =
      some (.IllegalInstruction 0x0123 0x202) ∧
    some (Chip8Error.IllegalInstruction 0x0123 0x202) ≠
      some (Chip8Error.UnknownMachineRoutine 0x123) := by
  refine ⟨?_, by decide⟩
  unfold runProgram
  rw [new_some _ (by decide)]
  show (runSteps [] 1 (.ok (newState [0x01, 0x23]))).errOf =
    some (.IllegalInstruction 0x0123 0x202)
  rw [runSteps_step [] 0 (newState [0x01, 0x23]) 0x01 0x23
    (.err (midState [0x01, 0x23] (List.replicate 16 0) 514)
      (.IllegalInstruction 0x0123 514))
    (progMem_byte _ 0 0x01 rfl (by decide)) (progMem_byte _ 1 0x23 rfl (by decide)) rfl]
  rfl

theorem writeMem_lt (mem : List Nat) (i v : Nat) (h : i < mem.length) :
    writeMem mem i v = some (mem.set i v) := by
  unfold writeMem
  rw [if_pos h]

theorem writeMem_ge (mem : List Nat) (i v : Nat) (h : mem.length ≤ i) :
    writeMem mem i v = none := by
  unfold writeMem
  rw [if_neg (by omega)]

/-- Everything above the glyph table in `baseMem` is zero. -/
theorem baseMem_get_high (k : Nat) (h1 : 0xA0 ≤ k) (h2 : k < 4096) :
    baseMem[k]? = some 0 := by
  unfold baseMem
  rw [List.getElem?_append_right
    (by rw [List.length_append, take_glyph_length, sprite_len]; omega)]
  rw [List.length_append, take_glyph_length, sprite_len]
  rw [List.getElem?_drop]
  rw [List.getElem?_replicate_of_lt (by omega)]

/-- Memory above the loaded program is zero. -/
theorem progMem_get_high (p : List Nat) (k : Nat) (hp : p.length ≤ 3584)
    (h1 : 512 + p.length ≤ k) (h2 : k < 4096) :
    (progMem p)[k]? = some 0 := by
  unfold progMem
  rw [List.getElem?_append_right
    (by rw [List.length_append, take_baseMem_length]; omega)]
  rw [List.length_append, take_baseMem_length]
  rw [List.getElem?_drop, Nat.add_sub_cancel' (by omega : 512 + p.length ≤ k)]
  exact baseMem_get_high _ (by omega) h2

/-- Inversion for a successful `writeMem`. -/
theorem writeMem_some {mem : List Nat} {i v : Nat} {m' : List Nat}
    (h : writeMem mem i v = some m') : i < mem.length ∧ m' = mem.set i v := by
  unfold writeMem at h
  by_cases hc : i < mem.length
  · rw [if_pos hc] at h
    exact ⟨hc, (Option.some.injEq _ _ ▸ h).symm⟩
  · rw [if_neg hc] at h
    cases h

/-- `store_bcd_in_mem` panics whenever the three target addresses do not
all fit in memory. -/
theorem store_bcd_oob (opcode : Nat) (st : Chip8)
    (h : st.mem.length ≤ st.address_register + 2) :
    store_bcd_in_mem opcode st = .panicked := by
  simp only [store_bcd_in_mem]
  split
  · rfl
  · rename_i m1 h1
    obtain ⟨hlt1, hm1⟩ := writeMem_some h1
    split
    · rfl
    · rename_i m2 h2
      obtain ⟨hlt2, hm2⟩ := writeMem_some h2
      split
      · rfl
      · rename_i m3 h3
        obtain ⟨hlt3, _⟩ := writeMem_some h3
        exfalso
        rw [hm2, hm1] at hlt3
        rw [List.length_set, List.length_set] at hlt3
        omega

/-- The inner loop of `store_v0_to_vx_in_mem` panics as soon as one write
is out of bounds. -/
theorem foldlM_writeMem_none (I : Nat) (regs : List Nat) :
    ∀ (js : List Nat) (mem : List Nat), (∃ j ∈ js, mem.length ≤ I + j) →
      js.foldlM (fun m i => writeMem m (I + i) (regs.getD i 0)) mem = none := by
  intro js
  induction js with
  | nil => intro mem h; simp at h
  | cons j js ih =>
    intro mem h
    simp only [List.foldlM]
    by_cases hj : I + j < mem.length
    · rw [writeMem_lt _ _ _ hj]
      simp only [Option.bind_eq_bind, Option.some_bind]
      apply ih
      obtain ⟨k, hk, hlen⟩ := h
      rcases List.mem_cons.mp hk with h1 | h2
      · subst h1; omega
      · exact ⟨k, h2, by rw [List.length_set]; exact hlen⟩
    · rw [writeMem_ge _ _ _ (by omega)]
      rfl

/-- The inner loop of `store_v0_to_vx_in_mem` when every write fits:
it performs exactly the `x + 1` stated writes. -/
theorem foldlM_writeMem_some (I : Nat) (regs : List Nat) :
    ∀ (js : List Nat) (mem : List Nat), (∀ j ∈ js, I + j < mem.length) →
      js.foldlM (fun m i => writeMem m (I + i) (regs.getD i 0)) mem =
        some (js.foldl (fun m i => m.set (I + i) (regs.getD i 0)) mem) := by
  intro js
  induction js with
  | nil => intro mem h; rfl
  | cons j js ih =>
    intro mem h
    simp only [List.foldlM, List.foldl]
    rw [writeMem_lt _ _ _ (h j (List.mem_cons_self _ _))]
    simp only [Option.bind_eq_bind, Option.some_bind]
    exact ih _ (fun k hk => by rw [List.length_set]; exact h k (List.mem_cons_of_mem _ hk))

/-- The inner loop of `load_v0_to_vx_from_mem` panics as soon as one read
is out of bounds. -/
theorem foldlM_readMem_none (mem : List Nat) (I : Nat) :
    ∀ (js : List Nat) (regs : List Nat), (∃ j ∈ js, mem.length ≤ I + j) →
      js.foldlM (fun regs i =>
        match mem[I + i]? with
        | none => none
        | some v => some (regs.set i v)) regs = none := by
  intro js
  induction js with
  | nil => intro regs h; simp at h
  | cons j js ih =>
    intro regs h
    simp only [List.foldlM]
    by_cases hj : I + j < mem.length
    · rw [List.getElem?_eq_getElem hj]
      simp only [Option.bind_eq_bind, Option.some_bind]
      apply ih
      obtain ⟨k, hk, hlen⟩ := h
      rcases List.mem_cons.mp hk with h1 | h2
      · subst h1; omega
      · exact ⟨k, h2, hlen⟩
    · rw [List.getElem?_eq_none (by omega)]
      simp only [Option.bind_eq_bind, Option.none_bind]

/-- `store_v0_to_vx_in_mem` panics when the last register's target address
is out of bounds. -/
theorem store_regs_oob (opcode : Nat) (st : Chip8)
    (h : st.mem.length ≤ st.address_register + ((opcode &&& 0x0F00) >>> 8)) :
    store_v0_to_vx_in_mem opcode st = .panicked := by
  simp only [store_v0_to_vx_in_mem]
  rw [foldlM_writeMem_none _ _ _ _
    ⟨(opcode &&& 0x0F00) >>> 8, List.mem_range.mpr (Nat.lt_succ_self _), h⟩]

/-- `store_v0_to_vx_in_mem` when every write fits. -/
theorem store_regs_ok (opcode : Nat) (st : Chip8)
    (h : ∀ j ∈ List.range (((opcode &&& 0x0F00) >>> 8) + 1),
      st.address_register + j < st.mem.length) :
    store_v0_to_vx_in_mem opcode st =
      .ok { st with mem := ((List.range (((opcode &&& 0x0F00) >>> 8) + 1)).foldl
        (fun m i => m.set (st.address_register + i) (st.registers.getD i 0)) st.mem) } := by
  simp only [store_v0_to_vx_in_mem]
  rw [foldlM_writeMem_some _ _ _ _ h]

/-- `load_v0_to_vx_from_mem` panics when the last register's source address
is out of bounds. -/
theorem load_regs_oob (opcode : Nat) (st : Chip8)
    (h : st.mem.length ≤ st.address_register + ((opcode &&& 0x0F00) >>> 8)) :
    load_v0_to_vx_from_mem opcode st = .panicked := by
  simp only [load_v0_to_vx_from_mem]
  rw [foldlM_readMem_none _ _ _ _
    ⟨(opcode &&& 0x0F00) >>> 8, List.mem_range.mpr (Nat.lt_succ_self _), h⟩]

/-- `store_bcd_in_mem` when the three writes fit. -/
theorem store_bcd_ok (opcode : Nat) (st : Chip8)
    (h : st.address_register + 2 < st.mem.length) :
    store_bcd_in_mem opcode st =
      .ok { st with mem :=
        (((st.mem.set st.address_register (st.reg ((opcode &&& 0x0F00) >>> 8) / 100)).set
          (st.address_register + 1) (st.reg ((opcode &&& 0x0F00) >>> 8) % 100 / 10)).set
          (st.address_register + 2) (st.reg ((opcode &&& 0x0F00) >>> 8) % 10)) } := by
  simp only [store_bcd_in_mem]
  split
  · rename_i h1
    rw [writeMem_lt _ _ _ (by omega)] at h1
    cases h1
  · rename_i m1 h1
    obtain ⟨_, hm1⟩ := writeMem_some h1
    subst hm1
    split
    · rename_i h2
      rw [writeMem_lt _ _ _ (by rw [List.length_set]; omega)] at h2
      cases h2
    · rename_i m2 h2
      obtain ⟨_, hm2⟩ := writeMem_some h2
      subst hm2
      split
      · rename_i h3
        rw [writeMem_lt _ _ _ (by rw [List.length_set, List.length_set]; omega)] at h3
        cases h3
      · rename_i m3 h3
        obtain ⟨_, hm3⟩ := writeMem_some h3
        subst hm3
        rfl

/-- Dispatch bridges for the three memory-block opcodes used below (the
state is left abstract so the right-hand side stays unevaluated). -/
theorem dispatch_F033 (input : List Nat) (st : Chip8) :
    dispatch input (0xF0 * 256 + 0x33) st = store_bcd_in_mem (0xF0 * 256 + 0x33) st := rfl

theorem dispatch_F155 (input : List Nat) (st : Chip8) :
    dispatch input (0xF1 * 256 + 0x55) st =
      store_v0_to_vx_in_mem (0xF1 * 256 + 0x55) st := rfl

theorem dispatch_F165 (input : List Nat) (st : Chip8) :
    dispatch input (0xF1 * 256 + 0x65) st =
      load_v0_to_vx_from_mem (0xF1 * 256 + 0x65) st := rfl

/-- C8: the three memory-block instructions index `self.mem` directly, so
an address register near the top of memory makes them panic
(index out of bounds) — `Chip8Error` has no out-of-bounds variant to
return.  With `I = 0xFFE`, BCD (`F033`) writes `I..I+2` and panics at
address 4096; with `I = 0xFFF`, `F155` dumps `V0, V1` to `0xFFF..0x1000`
and panics, and `F165` loads `V0, V1` from the same range and panics.
Within bounds they access exactly the stated bytes: with `V0 = 254`,
`I = 0x300`, BCD leaves bytes 2, 5, 4 at `0x300..0x302`, and `F155` with
`V0 = 9`, `V1 = 8` stores 9, 8 at `0x300..0x301`. -/
theorem c8_memory_ops_panic_out_of_bounds :
    runProgram [0xAF, 0xFE, 0xF0, 0x33] 2 = .panicked ∧
    runProgram [0xAF, 0xFF, 0xF1, 0x55] 2 = .panicked ∧
    runProgram [0xAF, 0xFF, 0xF1, 0x65] 2 = .panicked ∧
    ((runProgram [0x60, 254, 0xA3, 0x00, 0xF0, 0x33] 3).memOf 0x300 = some 2 ∧
     (runProgram [0x60, 254, 0xA3, 0x00, 0xF0, 0x33] 3).memOf 0x301 = some 5 ∧
     (runProgram [0x60, 254, 0xA3, 0x00, 0xF0, 0x33] 3).memOf 0x302 = some 4) ∧
    ((runProgram [0x60, 9, 0x61, 8, 0xA3, 0x00, 0xF1, 0x55] 4).memOf 0x300 = some 9 ∧
     (runProgram [0x60, 9, 0x61, 8, 0xA3, 0x00, 0xF1, 0x55] 4).memOf 0x301 = some 8) := by
  refine ⟨?_, ?_, ?_, ?_, ?_⟩
  · -- BCD out of bounds
    unfold runProgram
    rw [new_some _ (by decide)]
    show runSteps [] 2 (.ok (newState [0xAF, 0xFE, 0xF0, 0x33])) = .panicked
    rw [runSteps_step [] 1 (newState [0xAF, 0xFE, 0xF0, 0x33]) 0xAF 0xFE
      (.ok (midStateI [0xAF, 0xFE, 0xF0, 0x33] (List.replicate 16 0) 0xFFE 514))
      (progMem_byte _ 0 0xAF rfl (by decide)) (progMem_byte _ 1 0xFE rfl (by decide)) rfl]
    rw [runSteps_step [] 0
      (midStateI [0xAF, 0xFE, 0xF0, 0x33] (List.replicate 16 0) 0xFFE 514) 0xF0 0x33
      .panicked
      (progMem_byte _ 2 0xF0 rfl (by decide)) (progMem_byte _ 3 0x33 rfl (by decide))
      ((dispatch_F033 [] _).trans (store_bcd_oob _ _ (by
        show (progMem [0xAF, 0xFE, 0xF0, 0x33]).length ≤ 0xFFE + 2
        rw [length_progMem _ (by decide)])))]
    rfl
  · -- register dump out of bounds
    unfold runProgram
    rw [new_some _ (by decide)]
    show runSteps [] 2 (.ok (newState [0xAF, 0xFF, 0xF1, 0x55])) = .panicked
    rw [runSteps_step [] 1 (newState [0xAF, 0xFF, 0xF1, 0x55]) 0xAF 0xFF
      (.ok (midStateI [0xAF, 0xFF, 0xF1, 0x55] (List.replicate 16 0) 0xFFF 514))
      (progMem_byte _ 0 0xAF rfl (by decide)) (progMem_byte _ 1 0xFF rfl (by decide)) rfl]
    rw [runSteps_step [] 0
      (midStateI [0xAF, 0xFF, 0xF1, 0x55] (List.replicate 16 0) 0xFFF 514) 0xF1 0x55
      .panicked
      (progMem_byte _ 2 0xF1 rfl (by decide)) (progMem_byte _ 3 0x55 rfl (by decide))
      ((dispatch_F155 [] _).trans (store_regs_oob _ _ (by
        show (progMem [0xAF, 0xFF, 0xF1, 0x55]).length ≤
          0xFFF + (((0xF1 * 256 + 0x55) &&& 0x0F00) >>> 8)
        rw [length_progMem _ (by decide)]
        decide)))]
    rfl
  · -- register load out of bounds
    unfold runProgram
    rw [new_some _ (by decide)]
    show runSteps [] 2 (.ok (newState [0xAF, 0xFF, 0xF1, 0x65])) = .panicked
    rw [runSteps_step [] 1 (newState [0xAF, 0xFF, 0xF1, 0x65]) 0xAF 0xFF
      (.ok (midStateI [0xAF, 0xFF, 0xF1, 0x65] (List.replicate 16 0) 0xFFF 514))
      (progMem_byte _ 0 0xAF rfl (by decide)) (progMem_byte _ 1 0xFF rfl (by decide)) rfl]
    rw [runSteps_step [] 0
      (midStateI [0xAF, 0xFF, 0xF1, 0x65] (List.replicate 16 0) 0xFFF 514) 0xF1 0x65
      .panicked
      (progMem_byte _ 2 0xF1 rfl (by decide)) (progMem_byte _ 3 0x65 rfl (by decide))
      ((dispatch_F165 [] _).trans (load_regs_oob _ _ (by
        show (progMem [0xAF, 0xFF, 0xF1, 0x65]).length ≤
          0xFFF + (((0xF1 * 256 + 0x65) &&& 0x0F00) >>> 8)
        rw [length_progMem _ (by decide)]
        decide)))]
    rfl
  · -- BCD in bounds: 254 becomes bytes 2, 5, 4
    have hrun : runProgram [0x60, 254, 0xA3, 0x00, 0xF0, 0x33] 3 =
        .ok { midStateI [0x60, 254, 0xA3, 0x00, 0xF0, 0x33]
            [254, 0, 0, 0, 0, 0, 0, 0, 0, 0, 0, 0, 0, 0, 0, 0] 0x300 518 with
          mem := (((progMem [0x60, 254, 0xA3, 0x00, 0xF0, 0x33]).set 0x300 2).set
            0x301 5).set 0x302 4 } := by
      unfold runProgram
      rw [new_some _ (by decide)]
      show runSteps [] 3 (.ok (newState [0x60, 254, 0xA3, 0x00, 0xF0, 0x33])) = _
      rw [runSteps_step [] 2 (newState [0x60, 254, 0xA3, 0x00, 0xF0, 0x33]) 0x60 254
        (.ok (midState [0x60, 254, 0xA3, 0x00, 0xF0, 0x33]
          [254, 0, 0, 0, 0, 0, 0, 0, 0, 0, 0, 0, 0, 0, 0, 0] 514))
        (progMem_byte _ 0 0x60 rfl (by decide)) (progMem_byte _ 1 254 rfl (by decide)) rfl]
      rw [runSteps_step [] 1
        (midState [0x60, 254, 0xA3, 0x00, 0xF0, 0x33]
          [254, 0, 0, 0, 0, 0, 0, 0, 0, 0, 0, 0, 0, 0, 0, 0] 514) 0xA3 0x00
        (.ok (midStateI [0x60, 254, 0xA3, 0x00, 0xF0, 0x33]
          [254, 0, 0, 0, 0, 0, 0, 0, 0, 0, 0, 0, 0, 0, 0, 0] 0x300 516))
        (progMem_byte _ 2 0xA3 rfl (by decide)) (progMem_byte _ 3 0x00 rfl (by decide)) rfl]
      rw [runSteps_step [] 0
        (midStateI [0x60, 254, 0xA3, 0x00, 0xF0, 0x33]
          [254, 0, 0, 0, 0, 0, 0, 0, 0, 0, 0, 0, 0, 0, 0, 0] 0x300 516) 0xF0 0x33
        (.ok { midStateI [0x60, 254, 0xA3, 0x00, 0xF0, 0x33]
            [254, 0, 0, 0, 0, 0, 0, 0, 0, 0, 0, 0, 0, 0, 0, 0] 0x300 518 with
          mem := (((progMem [0x60, 254, 0xA3, 0x00, 0xF0, 0x33]).set 0x300 2).set
            0x301 5).set 0x302 4 })
        (progMem_byte _ 4 0xF0 rfl (by decide)) (progMem_byte _ 5 0x33 rfl (by decide))
        ((dispatch_F033 [] _).trans ((store_bcd_ok _ _ (by
          show (0x300 : Nat) + 2 < (progMem [0x60, 254, 0xA3, 0x00, 0xF0, 0x33]).length
          rw [length_progMem _ (by decide)]
          omega)).trans rfl))]
      rfl
    refine ⟨?_, ?_, ?_⟩ <;> rw [hrun]
    · show ((((progMem [0x60, 254, 0xA3, 0x00, 0xF0, 0x33]).set 0x300 2).set
        0x301 5).set 0x302 4)[0x300]? = some 2
      rw [List.getElem?_set_ne (by decide), List.getElem?_set_ne (by decide),
        List.getElem?_set_self (by rw [length_progMem _ (by decide)]; omega)]
    · show ((((progMem [0x60, 254, 0xA3, 0x00, 0xF0, 0x33]).set 0x300 2).set
        0x301 5).set 0x302 4)[0x301]? = some 5
      rw [List.getElem?_set_ne (by decide),
        List.getElem?_set_self (by rw [List.length_set, length_progMem _ (by decide)]; omega)]
    · show ((((progMem [0x60, 254, 0xA3, 0x00, 0xF0, 0x33]).set 0x300 2).set
        0x301 5).set 0x302 4)[0x302]? = some 4
      rw [List.getElem?_set_self
        (by rw [List.length_set, List.length_set, length_progMem _ (by decide)]; omega)]
  · -- register dump in bounds: V0 = 9, V1 = 8 stored at I, I + 1
    have hrun : runProgram [0x60, 9, 0x61, 8, 0xA3, 0x00, 0xF1, 0x55] 4 =
        .ok { midStateI [0x60, 9, 0x61, 8, 0xA3, 0x00, 0xF1, 0x55]
            [9, 8, 0, 0, 0, 0, 0, 0, 0, 0, 0, 0, 0, 0, 0, 0] 0x300 520 with
          mem := ((progMem [0x60, 9, 0x61, 8, 0xA3, 0x00, 0xF1, 0x55]).set 0x300 9).set
            0x301 8 } := by
      unfold runProgram
      rw [new_some _ (by decide)]
      show runSteps [] 4 (.ok (newState [0x60, 9, 0x61, 8, 0xA3, 0x00, 0xF1, 0x55])) = _
      rw [runSteps_step [] 3 (newState [0x60, 9, 0x61, 8, 0xA3, 0x00, 0xF1, 0x55]) 0x60 9
        (.ok (midState [0x60, 9, 0x61, 8, 0xA3, 0x00, 0xF1, 0x55]
          [9, 0, 0, 0, 0, 0, 0, 0, 0, 0, 0, 0, 0, 0, 0, 0] 514))
        (progMem_byte _ 0 0x60 rfl (by decide)) (progMem_byte _ 1 9 rfl (by decide)) rfl]
      rw [runSteps_step [] 2
        (midState [0x60, 9, 0x61, 8, 0xA3, 0x00, 0xF1, 0x55]
          [9, 0, 0, 0, 0, 0, 0, 0, 0, 0, 0, 0, 0, 0, 0, 0] 514) 0x61 8
        (.ok (midState [0x60, 9, 0x61, 8, 0xA3, 0x00, 0xF1, 0x55]
          [9, 8, 0, 0, 0, 0, 0, 0, 0, 0, 0, 0, 0, 0, 0, 0] 516))
        (progMem_byte _ 2 0x61 rfl (by decide)) (progMem_byte _ 3 8 rfl (by decide)) rfl]
      rw [runSteps_step [] 1
        (midState [0x60, 9, 0x61, 8, 0xA3, 0x00, 0xF1, 0x55]
          [9, 8, 0, 0, 0, 0, 0, 0, 0, 0, 0, 0, 0, 0, 0, 0] 516) 0xA3 0x00
        (.ok (midStateI [0x60, 9, 0x61, 8, 0xA3, 0x00, 0xF1, 0x55]
          [9, 8, 0, 0, 0, 0, 0, 0, 0, 0, 0, 0, 0, 0, 0, 0] 0x300 518))
        (progMem_byte _ 4 0xA3 rfl (by decide)) (progMem_byte _ 5 0x00 rfl (by decide)) rfl]
      rw [runSteps_step [] 0
        (midStateI [0x60, 9, 0x61, 8, 0xA3, 0x00, 0xF1, 0x55]
          [9, 8, 0, 0, 0, 0, 0, 0, 0, 0, 0, 0, 0, 0, 0, 0] 0x300 518) 0xF1 0x55
        (.ok { midStateI [0x60, 9, 0x61, 8, 0xA3, 0x00, 0xF1, 0x55]
            [9, 8, 0, 0, 0, 0, 0, 0, 0, 0, 0, 0, 0, 0, 0, 0] 0x300 520 with
          mem := ((progMem [0x60, 9, 0x61, 8, 0xA3, 0x00, 0xF1, 0x55]).set 0x300 9).set
            0x301 8 })
        (progMem_byte _ 6 0xF1 rfl (by decide)) (progMem_byte _ 7 0x55 rfl (by decide))
        ((dispatch_F155 [] _).trans ((store_regs_ok _ _ (by
          intro j hj
          have hj2 : j < 2 := by
            have h2 : (((0xF1 * 256 + 0x55) &&& 0x0F00) >>> 8) + 1 = 2 := by decide
            exact h2 ▸ List.mem_range.mp hj
          show (0x300 : Nat) + j < (progMem [0x60, 9, 0x61, 8, 0xA3, 0x00, 0xF1, 0x55]).length
          rw [length_progMem _ (by decide)]
          omega)).trans rfl))]
      rfl
    refine ⟨?_, ?_⟩ <;> rw [hrun]
    · show (((progMem [0x60, 9, 0x61, 8, 0xA3, 0x00, 0xF1, 0x55]).set 0x300 9).set
        0x301 8)[0x300]? = some 9
      rw [List.getElem?_set_ne (by decide),
        List.getElem?_set_self (by rw [length_progMem _ (by decide)]; omega)]
    · show (((progMem [0x60, 9, 0x61, 8, 0xA3, 0x00, 0xF1, 0x55]).set 0x300 9).set
        0x301 8)[0x301]? = some 8
      rw [List.getElem?_set_self
        (by rw [List.length_set, length_progMem _ (by decide)]; omega)]

/-- C10: `Chip8::new` copies the program to `mem[512..512+len]`; the copy
is in bounds exactly when the program has at most `4096 - 512 = 3584`
bytes.  A longer program makes the slice operation panic (modelled by
`none`) — there is no error return.  A fitting program is placed verbatim
at 0x200 with the program counter initialised to 0x200. -/
theorem c10_construction_bounds (p : List Nat) :
    (3584 < p.length → Chip8.new p = none) ∧
    (p.length ≤ 3584 → ∃ st, Chip8.new p = some st ∧ st.pc = 512 ∧
      ∀ i, i < p.length → st.mem[512 + i]? = p[i]?) := by
  constructor
  · intro h
    rw [new_eq, if_neg (by omega)]
  · intro h
    refine ⟨newState p, new_some p h, rfl, fun i hi => ?_⟩
    show (progMem p)[512 + i]? = p[i]?
    rw [progMem_get_mid _ _ (by omega) (by omega), Nat.add_sub_cancel_left]

/-- C10, witness: a 3585-byte program is rejected (panic), a 1-byte
program is loaded at 0x200. -/
theorem c10_construction_bounds_witness :
    Chip8.new (List.replicate 3585 0) = none ∧
    (Chip8.new [7]).bind (fun st => st.mem[512]?) = some 7 := by
  constructor
  · exact (c10_construction_bounds _).1 (by rw [List.length_replicate]; omega)
  · obtain ⟨st, h1, h2, h3⟩ := (c10_construction_bounds [7]).2 (by decide)
    rw [h1, Option.some_bind]
    have h4 := h3 0 (by decide)
    simpa using h4

/-- Reading a register just written. -/
theorem reg_setReg_self (st : Chip8) (i v : Nat) (h : i < st.registers.length) :
    (st.setReg i v).reg i = v := by
  unfold Chip8.reg Chip8.setReg
  rw [List.getD_eq_getElem?_getD]
  show ((st.registers.set i v)[i]?).getD 0 = v
  rw [List.getElem?_set_self h]
  rfl

/-- Reading a register other than the one just written. -/
theorem reg_setReg_ne (st : Chip8) (i j v : Nat) (h : i ≠ j) :
    (st.setReg i v).reg j = st.reg j := by
  unfold Chip8.reg Chip8.setReg
  rw [List.getD_eq_getElem?_getD, List.getD_eq_getElem?_getD]
  show ((st.registers.set i v)[j]?).getD 0 = _
  rw [List.getElem?_set_ne h]

/-- The register index extracted from an opcode is always a nibble. -/
theorem opcode_x_lt_16 (opcode : Nat) : (opcode &&& 0x0F00) >>> 8 < 16 := by
  have h1 : opcode &&& 0x0F00 ≤ 0x0F00 := Nat.and_le_right
  rw [Nat.shiftRight_eq_div_pow]
  calc (opcode &&& 0x0F00) / 2 ^ 8 ≤ 0x0F00 / 2 ^ 8 := Nat.div_le_div_right h1
    _ < 16 := by decide

/-- C3 (amended): `right_shift_vx` and `left_shift_vx` write the shifted-out
bit to register 15 FIRST and shift `registers[x]` afterwards.  For `x ≠ 15`
register 15 therefore ends up holding exactly the shifted-out bit, but for
`x = 15` the flag itself is then shifted: register 15 ends as 0 after a
right shift and as `2 · msb(old VF)` after a left shift — not the
shifted-out bit required by the claim. -/
theorem c3_shift_flag_characterization (st : Chip8) (opcode : Nat)
    (hlen : st.registers.length = 16) :
    (∃ st', right_shift_vx opcode st = .ok st' ∧
      st'.registers[15]? =
        some (if (opcode &&& 0x0F00) >>> 8 = 15 then 0
          else st.reg ((opcode &&& 0x0F00) >>> 8) &&& 1)) ∧
    (∃ st', left_shift_vx opcode st = .ok st' ∧
      st'.registers[15]? =
        some (if (opcode &&& 0x0F00) >>> 8 = 15
          then 2 * ((st.reg 15 &&& 0x80) >>> 7)
          else (st.reg ((opcode &&& 0x0F00) >>> 8) &&& 0x80) >>> 7)) := by
  have hx : (opcode &&& 0x0F00) >>> 8 < 16 := opcode_x_lt_16 opcode
  constructor
  · refine ⟨_, rfl, ?_⟩
    show ((st.setReg 15 (st.reg ((opcode &&& 0x0F00) >>> 8) &&& 1)).registers.set
      ((opcode &&& 0x0F00) >>> 8)
      ((st.setReg 15 (st.reg ((opcode &&& 0x0F00) >>> 8) &&& 1)).reg
        ((opcode &&& 0x0F00) >>> 8) >>> 1))[15]? = _
    by_cases h15 : (opcode &&& 0x0F00) >>> 8 = 15
    · rw [if_pos h15, h15]
      rw [List.getElem?_set_self (by
        show 15 < (st.registers.set 15 _).length
        rw [List.length_set, hlen]
        omega)]
      rw [reg_setReg_self _ _ _ (by rw [hlen]; omega)]
      have hle : st.reg 15 &&& 1 ≤ 1 := by rw [Nat.and_one_is_mod]; omega
      rw [Nat.shiftRight_eq_div_pow]
      rw [Nat.div_eq_of_lt (by omega)]
    · rw [if_neg h15]
      rw [List.getElem?_set_ne h15]
      show (st.registers.set 15 (st.reg ((opcode &&& 0x0F00) >>> 8) &&& 1))[15]? =
        some (st.reg ((opcode &&& 0x0F00) >>> 8) &&& 1)
      rw [List.getElem?_set_self (by rw [hlen]; omega)]
  · refine ⟨_, rfl, ?_⟩
    show ((st.setReg 15 ((st.reg ((opcode &&& 0x0F00) >>> 8) &&& 0x80) >>> 7)).registers.set
      ((opcode &&& 0x0F00) >>> 8)
      (((st.setReg 15 ((st.reg ((opcode &&& 0x0F00) >>> 8) &&& 0x80) >>> 7)).reg
        ((opcode &&& 0x0F00) >>> 8) <<< 1) % 256))[15]? = _
    by_cases h15 : (opcode &&& 0x0F00) >>> 8 = 15
    · rw [if_pos h15, h15]
      rw [List.getElem?_set_self (by
        show 15 < (st.registers.set 15 _).length
        rw [List.length_set, hlen]
        omega)]
      rw [reg_setReg_self _ _ _ (by rw [hlen]; omega)]
      have hle : (st.reg 15 &&& 0x80) >>> 7 ≤ 1 := by
        have h1 : st.reg 15 &&& 0x80 ≤ 0x80 := Nat.and_le_right
        rw [Nat.shiftRight_eq_div_pow]
        calc (st.reg 15 &&& 0x80) / 2 ^ 7 ≤ 0x80 / 2 ^ 7 := Nat.div_le_div_right h1
          _ ≤ 1 := by decide
      generalize hg : (st.reg 15 &&& 0x80) >>> 7 = M at hle ⊢
      interval_cases M
      · rfl
      · rfl
    · rw [if_neg h15]
      rw [List.getElem?_set_ne h15]
      show (st.registers.set 15
        ((st.reg ((opcode &&& 0x0F00) >>> 8) &&& 0x80) >>> 7))[15]? =
        some ((st.reg ((opcode &&& 0x0F00) >>> 8) &&& 0x80) >>> 7)
      rw [List.getElem?_set_self (by rw [hlen]; omega)]

/-- C3, witness: shifting register 15 itself (`x = 15`, `VF = 0x81`):
after `8F06` register 15 is 0 (not the shifted-out lsb 1); after `8F0E`
register 15 is 2 (not the shifted-out msb 1). -/
theorem c3_shift_flag_characterization_witness :
    (mkState [] [0, 0, 0, 0, 0, 0, 0, 0, 0, 0, 0, 0, 0, 0, 0, 0x81] 0).registers.length
      = 16 ∧
    (right_shift_vx 0x8F06
      (mkState [] [0, 0, 0, 0, 0, 0, 0, 0, 0, 0, 0, 0, 0, 0, 0, 0x81] 0)).regOf 15 =
      some 0 ∧
    (left_shift_vx 0x8F0E
      (mkState [] [0, 0, 0, 0, 0, 0, 0, 0, 0, 0, 0, 0, 0, 0, 0, 0x81] 0)).regOf 15 =
      some 2 := by
  refine ⟨rfl, ?_, ?_⟩
  · obtain ⟨⟨st', e1, v1⟩, -⟩ := c3_shift_flag_characterization
      (mkState [] [0, 0, 0, 0, 0, 0, 0, 0, 0, 0, 0, 0, 0, 0, 0, 0x81] 0) 0x8F06 rfl
    rw [show (right_shift_vx 0x8F06
      (mkState [] [0, 0, 0, 0, 0, 0, 0, 0, 0, 0, 0, 0, 0, 0, 0, 0x81] 0)).regOf 15 =
        st'.registers[15]? by rw [e1]; rfl]
    rw [v1, if_pos (by decide)]
  · obtain ⟨-, ⟨st', e1, v1⟩⟩ := c3_shift_flag_characterization
      (mkState [] [0, 0, 0, 0, 0, 0, 0, 0, 0, 0, 0, 0, 0, 0, 0, 0x81] 0) 0x8F0E rfl
    rw [show (left_shift_vx 0x8F0E
      (mkState [] [0, 0, 0, 0, 0, 0, 0, 0, 0, 0, 0, 0, 0, 0, 0, 0x81] 0)).regOf 15 =
        st'.registers[15]? by rw [e1]; rfl]
    rw [v1, if_pos (by decide)]
    rfl

/-- C5 (amended): executing the word `0xFFFF` returns `IllegalInstruction`
carrying the raw word and a `pc` field equal to the fetch address plus 2
(the counter was advanced before the dispatch); the state's own `pc` has
been advanced the same way and `refresh_display` cleared — no other field
changes. -/
theorem c5_illegal_instruction_carries_advanced_pc (st : Chip8)
    (h1 : st.mem[st.pc]? = some 0xFF) (h2 : st.mem[st.pc + 1]? = some 0xFF) :
    exec_instruction [] st =
      .err { st with refresh_display := false, pc := st.pc + 2 }
        (.IllegalInstruction 0xFFFF (st.pc + 2)) := by
  rw [exec_eq_dispatch [] st 0xFF 0xFF h1 h2]
  rfl

/-- C5, witness. -/
theorem c5_illegal_instruction_carries_advanced_pc_witness :
    (mkState [0xFF, 0xFF] (List.replicate 16 0) 0).mem[0]? = some 0xFF ∧
    exec_instruction [] (mkState [0xFF, 0xFF] (List.replicate 16 0) 0) =
      .err { mkState [0xFF, 0xFF] (List.replicate 16 0) 0 with
          refresh_display := false, pc := 2 }
        (.IllegalInstruction 0xFFFF 2) :=
  ⟨rfl, c5_illegal_instruction_carries_advanced_pc _ rfl rfl⟩

/-- A word below `0x1000` has no bits in the `0xF000` mask. -/
theorem and_f000_of_lt {w : Nat} (hw : w < 4096) : w &&& 0xF000 = 0 := by
  apply Nat.eq_of_testBit_eq
  intro i
  rw [Nat.testBit_and, Nat.zero_testBit]
  rw [show (0xF000 : Nat) = 15 <<< 12 from by decide]
  rw [Nat.testBit_shiftLeft]
  rcases Nat.lt_or_ge i 12 with hi | hi
  · simp [Nat.not_le_of_lt hi]
  · have hlt : w < 2 ^ i := by
      calc w < 4096 := hw
        _ = 2 ^ 12 := by norm_num
        _ ≤ 2 ^ i := Nat.pow_le_pow_right (by norm_num) hi
    rw [Nat.testBit_lt_two_pow hlt]
    simp

/-- Masking with the low byte is reduction mod 256. -/
theorem and_00ff_eq_mod (w : Nat) : w &&& 0x00FF = w % 256 := by
  rw [show (0x00FF : Nat) = 2 ^ 8 - 1 from by decide]
  rw [Nat.and_pow_two_sub_one_eq_mod]

/-- Masking a word below `0x1000` with `0x0FFF` is the identity. -/
theorem and_0fff_of_lt {w : Nat} (hw : w < 4096) : w &&& 0x0FFF = w := by
  rw [show (0x0FFF : Nat) = 2 ^ 12 - 1 from by decide]
  rw [Nat.and_pow_two_sub_one_eq_mod]
  exact Nat.mod_eq_of_lt (by norm_num [hw])

/-- When the leading nibble of the opcode is zero, `dispatch` enters the
family-0 secondary dispatch on the low byte. -/
theorem dispatch_family0 (input : List Nat) (opcode : Nat) (st : Chip8)
    (h : (opcode &&& 0xF000) >>> 12 = 0) :
    dispatch input opcode st =
      match opcode &&& 0x00FF with
      | 0x00 => call_machine_routine opcode st
      | 0xE0 => clear_display st
      | 0xEE => subroutine_return st
      | _ => .err st (.IllegalInstruction opcode st.pc) := by
  unfold dispatch
  rw [h]

/-- C6 (amended): a word `w < 0x1000` (leading nibble 0) whose low byte is
neither `0xE0` nor `0xEE` executes as follows: if the low byte is exactly
`0x00` it fails with `UnknownMachineRoutine` carrying the low 12 bits
(= `w`); for every other low byte it fails with `IllegalInstruction` — the
family-0 secondary dispatch matches the full low byte against `0x00`, not
against "anything other than E0/EE". -/
theorem c6_family0_dispatch (st : Chip8) (w : Nat) (hw : w < 4096)
    (h1 : st.mem[st.pc]? = some (w / 256)) (h2 : st.mem[st.pc + 1]? = some (w % 256))
    (hne0 : w % 256 ≠ 0xE0) (hne1 : w % 256 ≠ 0xEE) :
    exec_instruction [] st =
      if w % 256 = 0 then
        .err { st with refresh_display := false, pc := st.pc + 2 }
          (.UnknownMachineRoutine w)
      else
        .err { st with refresh_display := false, pc := st.pc + 2 }
          (.IllegalInstruction w (st.pc + 2)) := by
  rw [exec_eq_dispatch [] st (w / 256) (w % 256) h1 h2]
  rw [show w / 256 * 256 + w % 256 = w from by omega]
  rw [dispatch_family0 [] w _ (by rw [and_f000_of_lt hw, Nat.zero_shiftRight])]
  rw [and_00ff_eq_mod]
  by_cases hb0 : w % 256 = 0
  · rw [if_pos hb0, hb0]
    show call_machine_routine w _ = _
    unfold call_machine_routine
    rw [and_0fff_of_lt hw]
  · rw [if_neg hb0]
    split
    · rename_i heq
      exact absurd heq hb0
    · rename_i heq
      exact absurd heq hne0
    · rename_i heq
      exact absurd heq hne1
    · rfl

/-- C6, witness: `0x0123` (low byte `0x23`) gives `IllegalInstruction`;
`0x0100` (low byte `0x00`) gives `UnknownMachineRoutine 0x100`. -/
theorem c6_family0_dispatch_witness :
    (0x123 : Nat) < 4096 ∧
    exec_instruction [] (mkState [0x01, 0x23] (List.replicate 16 0) 0) =
      .err { mkState [0x01, 0x23] (List.replicate 16 0) 0 with
          refresh_display := false, pc := 2 }
        (.IllegalInstruction 0x123 2) ∧
    exec_instruction [] (mkState [0x01, 0x00] (List.replicate 16 0) 0) =
      .err { mkState [0x01, 0x00] (List.replicate 16 0) 0 with
          refresh_display := false, pc := 2 }
        (.UnknownMachineRoutine 0x100) := by
  refine ⟨by decide, ?_, ?_⟩
  · have h := c6_family0_dispatch (mkState [0x01, 0x23] (List.replicate 16 0) 0) 0x123
      (by decide) rfl rfl (by decide) (by decide)
    rw [if_neg (by decide)] at h
    exact h
  · have h := c6_family0_dispatch (mkState [0x01, 0x00] (List.replicate 16 0) 0) 0x100
      (by decide) rfl rfl (by decide) (by decide)
    rw [if_pos (by decide)] at h
    exact h

theorem pixel_from_u8_testBit (b k : Nat) :
    pixel_from_u8 b k = Nat.testBit b (7 - k) := by
  unfold pixel_from_u8
  rw [Nat.and_one_is_mod, Nat.testBit_to_div_mod, Nat.shiftRight_eq_div_pow]
  by_cases h : b / 2 ^ (7 - k) % 2 = 1 <;> simp [h]

theorem pixel_merge (c : Nat) (b b' : Nat) (p : Bool) (hb : b < 8) (hb' : b' < 8) :
    pixel_from_u8 (merge_pixel_into_u8 c b p) b' =
      if b' = b then p else pixel_from_u8 c b' := by
  rw [pixel_from_u8_testBit, pixel_from_u8_testBit]
  unfold merge_pixel_into_u8
  rw [Nat.testBit_or, Nat.testBit_and, Nat.testBit_xor]
  rw [show (0xFF : Nat) = 2 ^ 8 - 1 from by decide, Nat.testBit_two_pow_sub_one]
  rw [Nat.testBit_shiftLeft, Nat.testBit_shiftLeft]
  by_cases hbb : b' = b
  · subst hbb
    rw [if_pos rfl]
    simp only [ge_iff_le, Nat.le_refl, decide_True, Nat.sub_self, Bool.true_and]
    simp only [Nat.sub_lt_succ, decide_True]
    cases p <;> simp
  · rw [if_neg hbb]
    rcases Nat.lt_or_ge (7 - b') (7 - b) with hlt | hge
    · have hn : ¬ (7 - b ≤ 7 - b') := by omega
      simp only [ge_iff_le, hn, decide_False, Bool.false_and, Bool.false_xor,
        Bool.or_false]
      simp only [Nat.sub_lt_succ, decide_True, Bool.and_true]
    · have hpos : 0 < 7 - b' - (7 - b) := by omega
      have ht1 : Nat.testBit 1 (7 - b' - (7 - b)) = false :=
        Nat.testBit_lt_two_pow (by
          calc (1 : Nat) < 2 ^ 1 := by norm_num
            _ ≤ 2 ^ (7 - b' - (7 - b)) := Nat.pow_le_pow_right (by norm_num) (by omega))
      have htp : Nat.testBit (if p then (1 : Nat) else 0) (7 - b' - (7 - b)) = false := by
        cases p
        · simp
        · simpa using ht1
      simp only [ge_iff_le, hge, decide_True, ht1, htp, Bool.and_false, Bool.true_and,
        Bool.false_xor, Bool.or_false]
      simp only [Nat.sub_lt_succ, decide_True, Bool.and_true]




theorem getD_set_self' (l : List Nat) (i : Nat) (v : Nat) (dflt : Nat)
    (h : i < l.length) : (l.set i v).getD i dflt = v := by
  rw [List.getD_eq_getElem?_getD, List.getElem?_set_self h]
  rfl

theorem getD_set_ne' {α : Type} [Inhabited α] (l : List α) (i j : Nat) (v : α) (dflt : α)
    (h : i ≠ j) : (l.set i v).getD j dflt = l.getD j dflt := by
  rw [List.getD_eq_getElem?_getD, List.getD_eq_getElem?_getD, List.getElem?_set_ne h]

theorem rowD_set_self (d : List (List Nat)) (i : Nat) (v : List Nat)
    (h : i < d.length) : (d.set i v).getD i [] = v := by
  rw [List.getD_eq_getElem?_getD, List.getElem?_set_self h]
  rfl

theorem rowD_set_ne (d : List (List Nat)) (i j : Nat) (v : List Nat)
    (h : i ≠ j) : (d.set i v).getD j [] = d.getD j [] := by
  rw [List.getD_eq_getElem?_getD, List.getD_eq_getElem?_getD, List.getElem?_set_ne h]

theorem drawCol_eq (x y row sprite : Nat) (d : List (List Nat)) (vf col : Nat)
    (hd : DisplayShape d) :
    ∃ d' vf', drawCol x y row sprite (d, vf) col = some (d', vf') ∧ DisplayShape d' ∧
      ∀ py px, py < 32 → px < 64 →
        pixAt d' py px =
          if py = (y + row) % 32 ∧ px = (x + col) % 64 then
            xor (pixAt d py px) (pixel_from_u8 sprite col)
          else pixAt d py px := by
  obtain ⟨hlen, hrows⟩ := hd
  have hly : (y + row) % 32 < 32 := Nat.mod_lt _ (by omega)
  have hx64 : (x + col) % 64 < 64 := Nat.mod_lt _ (by omega)
  have hlx : ((x + col) % 64) / 8 < 8 := by omega
  have hRlen : (d.getD ((y + row) % 32) []).length = 8 := hrows _ hly
  have hR : d[(y + row) % 32]? = some (d.getD ((y + row) % 32) []) := by
    rw [List.getD_eq_getElem?_getD, List.getElem?_eq_getElem (by omega)]
    rfl
  have hcell : (d.getD ((y + row) % 32) [])[((x + col) % 64) / 8]? =
      some ((d.getD ((y + row) % 32) []).getD (((x + col) % 64) / 8) 0) := by
    rw [List.getD_eq_getElem?_getD (l := d.getD ((y + row) % 32) []),
      List.getElem?_eq_getElem (by omega)]
    rfl
  have hmod8 : (x + col) % 64 % 8 = (x + col) % 8 := Nat.mod_mod_of_dvd _ (by norm_num)
  have hsplit : (x + col) % 64 = 8 * (((x + col) % 64) / 8) + (x + col) % 8 := by
    omega
  refine ⟨d.set ((y + row) % 32)
      ((d.getD ((y + row) % 32) []).set (((x + col) % 64) / 8)
        (merge_pixel_into_u8 ((d.getD ((y + row) % 32) []).getD (((x + col) % 64) / 8) 0)
          ((x + col) % 8)
          (xor (pixel_from_u8 ((d.getD ((y + row) % 32) []).getD (((x + col) % 64) / 8) 0)
            ((x + col) % 8)) (pixel_from_u8 sprite col)))),
    vf ||| (if (pixel_from_u8 ((d.getD ((y + row) % 32) []).getD (((x + col) % 64) / 8) 0)
        ((x + col) % 8)) &&
        !(xor (pixel_from_u8 ((d.getD ((y + row) % 32) []).getD (((x + col) % 64) / 8) 0)
          ((x + col) % 8)) (pixel_from_u8 sprite col)) then 1 else 0), ?_, ?_, ?_⟩
  · simp only [drawCol, hR, hcell]
  · constructor
    · rw [List.length_set, hlen]
    · intro i hi
      by_cases hiy : i = (y + row) % 32
      · subst hiy
        rw [rowD_set_self _ _ _ (by omega)]
        rw [List.length_set]
        exact hRlen
      · rw [rowD_set_ne _ _ _ _ (fun hc => hiy hc.symm)]
        exact hrows _ hi
  · intro py px hpy hpx
    by_cases hpyly : py = (y + row) % 32
    · subst hpyly
      unfold pixAt
      rw [rowD_set_self _ _ _ (by omega)]
      by_cases hpx8 : px / 8 = ((x + col) % 64) / 8
      · rw [hpx8, getD_set_self' _ _ _ _ (by omega)]
        by_cases hb : px % 8 = (x + col) % 8
        · rw [hb, pixel_merge _ _ _ _ (by omega) (by omega), if_pos rfl]
          rw [if_pos ⟨rfl, by omega⟩]
        · rw [pixel_merge _ _ _ _ (by omega) (by omega), if_neg hb]
          rw [if_neg (by rintro ⟨-, h2⟩; exact hb (by omega))]
      · rw [getD_set_ne' _ _ _ _ _ (fun hc => hpx8 hc.symm)]
        rw [if_neg (by rintro ⟨-, h2⟩; exact hpx8 (by omega))]
    · unfold pixAt
      rw [rowD_set_ne _ _ _ _ (fun hc => hpyly hc.symm)]
      rw [if_neg (by rintro ⟨h1, -⟩; exact hpyly h1)]


theorem drawRow63_eq (row sprite : Nat) (d : List (List Nat)) (vf : Nat)
    (hd : DisplayShape d) :
    ∃ d' vf', drawRow 63 31 sprite row (d, vf) = some (d', vf') ∧ DisplayShape d' ∧
      ∀ py px, py < 32 → px < 64 →
        pixAt d' py px =
          if py = (31 + row) % 32 ∧ px = 63 then
            xor (pixAt d py px) (pixel_from_u8 sprite 0)
          else if py = (31 + row) % 32 ∧ px < 7 then
            xor (pixAt d py px) (pixel_from_u8 sprite (px + 1))
          else pixAt d py px := by
  obtain ⟨d1, v1, e1, s1, p1⟩ := drawCol_eq 63 31 row sprite d vf 0 hd
  obtain ⟨d2, v2, e2, s2, p2⟩ := drawCol_eq 63 31 row sprite d1 v1 1 s1
  obtain ⟨d3, v3, e3, s3, p3⟩ := drawCol_eq 63 31 row sprite d2 v2 2 s2
  obtain ⟨d4, v4, e4, s4, p4⟩ := drawCol_eq 63 31 row sprite d3 v3 3 s3
  obtain ⟨d5, v5, e5, s5, p5⟩ := drawCol_eq 63 31 row sprite d4 v4 4 s4
  obtain ⟨d6, v6, e6, s6, p6⟩ := drawCol_eq 63 31 row sprite d5 v5 5 s5
  obtain ⟨d7, v7, e7, s7, p7⟩ := drawCol_eq 63 31 row sprite d6 v6 6 s6
  obtain ⟨d8, v8, e8, s8, p8⟩ := drawCol_eq 63 31 row sprite d7 v7 7 s7
  refine ⟨d8, v8, ?_, s8, ?_⟩
  · unfold drawRow
    rw [show List.range 8 = [0, 1, 2, 3, 4, 5, 6, 7] from rfl]
    simp only [List.foldlM, e1, e2, e3, e4, e5, e6, e7, e8, Option.bind_eq_bind,
      Option.some_bind, Option.pure_def]
  · intro py px hpy hpx
    have q1 := p1 py px hpy hpx
    have q2 := p2 py px hpy hpx
    have q3 := p3 py px hpy hpx
    have q4 := p4 py px hpy hpx
    have q5 := p5 py px hpy hpx
    have q6 := p6 py px hpy hpx
    have q7 := p7 py px hpy hpx
    have q8 := p8 py px hpy hpx
    rw [q8, q7, q6, q5, q4, q3, q2, q1]
    by_cases hrow : py = (31 + row) % 32
    · simp only [hrow, true_and]
      interval_cases px <;> simp
    · simp [hrow]

/-- C9: drawing an 8-wide sprite at `(63, 31)`.  For a 1-row sprite
(`D011`, registers `V0 = 63`, `V1 = 31`) the handler succeeds (every
framebuffer index is in bounds), and each of the 8 sprite pixels lands at
row 31, column `(63 + c) mod 64`: bit 0 at column 63, bits 1..7 wrapping
into columns 0..6; all other pixels are untouched; compositing is XOR.
For a 2-row sprite (`D012`) the second sprite row additionally wraps to
display row `(31 + 1) mod 32 = 0`, each of its pixels wrapping
horizontally the same way. -/
theorem c9_draw_wraps_and_stays_in_bounds (st : Chip8) (s1 s2 : Nat)
    (hshape : DisplayShape st.display)
    (hr0 : st.reg 0 = 63) (hr1 : st.reg 1 = 31)
    (hm1 : st.mem[st.address_register + 0]? = some s1)
    (hm2 : st.mem[st.address_register + 1]? = some s2) :
    (∃ st', draw_sprite_at_coordinates_vx_vy_with_height_n 0xD011 st = .ok st' ∧
      DisplayShape st'.display ∧ st'.refresh_display = true ∧
      ∀ py px, py < 32 → px < 64 →
        pixAt st'.display py px =
          if py = 31 ∧ px = 63 then
            xor (pixAt st.display py px) (pixel_from_u8 s1 0)
          else if py = 31 ∧ px < 7 then
            xor (pixAt st.display py px) (pixel_from_u8 s1 (px + 1))
          else pixAt st.display py px) ∧
    (∃ st', draw_sprite_at_coordinates_vx_vy_with_height_n 0xD012 st = .ok st' ∧
      DisplayShape st'.display ∧
      ∀ py px, py < 32 → px < 64 →
        pixAt st'.display py px =
          if py = 31 ∧ px = 63 then
            xor (pixAt st.display py px) (pixel_from_u8 s1 0)
          else if py = 31 ∧ px < 7 then
            xor (pixAt st.display py px) (pixel_from_u8 s1 (px + 1))
          else if py = 0 ∧ px = 63 then
            xor (pixAt st.display py px) (pixel_from_u8 s2 0)
          else if py = 0 ∧ px < 7 then
            xor (pixAt st.display py px) (pixel_from_u8 s2 (px + 1))
          else pixAt st.display py px) := by
  constructor
  · obtain ⟨d1, vf1, he1, hs1, hp1⟩ := drawRow63_eq 0 s1 st.display 0 hshape
    have hh : draw_sprite_at_coordinates_vx_vy_with_height_n 0xD011 st =
        .ok { st.setReg 0xF vf1 with display := d1, refresh_display := true } := by
      show (match (List.range 1).foldlM (fun acc row =>
          match st.mem[st.address_register + row]? with
          | none => none
          | some sprite => drawRow (st.reg 0 % 64) (st.reg 1 % 32) sprite row acc)
          (st.display, 0) with
        | none => StepResult.panicked
        | some (d, vf) =>
          StepResult.ok { st.setReg 0xF vf with display := d, refresh_display := true }) =
        .ok { st.setReg 0xF vf1 with display := d1, refresh_display := true }
      rw [hr0, hr1, show (63 : Nat) % 64 = 63 from rfl, show (31 : Nat) % 32 = 31 from rfl]
      rw [show List.range 1 = [0] from rfl]
      simp only [List.foldlM, hm1, he1, Option.bind_eq_bind, Option.some_bind,
        Option.pure_def]
    refine ⟨_, hh, hs1, rfl, ?_⟩
    intro py px hpy hpx
    have q1 := hp1 py px hpy hpx
    rw [show ({ st.setReg 0xF vf1 with
      display := d1, refresh_display := true } : Chip8).display = d1 from rfl]
    rw [q1]
  · obtain ⟨d1, vf1, he1, hs1, hp1⟩ := drawRow63_eq 0 s1 st.display 0 hshape
    obtain ⟨d2, vf2, he2, hs2, hp2⟩ := drawRow63_eq 1 s2 d1 vf1 hs1
    have hh : draw_sprite_at_coordinates_vx_vy_with_height_n 0xD012 st =
        .ok { st.setReg 0xF vf2 with display := d2, refresh_display := true } := by
      show (match (List.range 2).foldlM (fun acc row =>
          match st.mem[st.address_register + row]? with
          | none => none
          | some sprite => drawRow (st.reg 0 % 64) (st.reg 1 % 32) sprite row acc)
          (st.display, 0) with
        | none => StepResult.panicked
        | some (d, vf) =>
          StepResult.ok { st.setReg 0xF vf with display := d, refresh_display := true }) =
        .ok { st.setReg 0xF vf2 with display := d2, refresh_display := true }
      rw [hr0, hr1, show (63 : Nat) % 64 = 63 from rfl, show (31 : Nat) % 32 = 31 from rfl]
      rw [show List.range 2 = [0, 1] from rfl]
      simp only [List.foldlM, hm1, hm2, he1, he2, Option.bind_eq_bind, Option.some_bind,
        Option.pure_def]
    refine ⟨_, hh, hs2, ?_⟩
    intro py px hpy hpx
    have q1 := hp1 py px hpy hpx
    have q2 := hp2 py px hpy hpx
    rw [show ({ st.setReg 0xF vf2 with
      display := d2, refresh_display := true } : Chip8).display = d2 from rfl]
    rw [q2, q1]
    by_cases h31 : py = 31
    · subst h31
      interval_cases px <;> simp
    · by_cases h0 : py = 0
      · subst h0
        interval_cases px <;> simp
      · simp [h31, h0, show py ≠ (31 + 0) % 32 from by omega,
          show py ≠ (31 + 1) % 32 from by omega]

/-- C9, witness: drawing sprite bytes `0xF0` (row 0) and `0x0F` (row 1) at
`(63, 31)` on the zeroed display: the height-1 draw turns on pixel
`(31, 0)` (sprite bit 1 wrapped into column 0), the height-2 draw turns on
pixel `(0, 6)` (sprite row 1 wrapped to display row 0, bit 7 wrapped into
column 6). -/
theorem c9_draw_wraps_and_stays_in_bounds_witness :
    DisplayShape (mkState [0xF0, 0x0F] [63, 31, 0, 0, 0, 0, 0, 0, 0, 0, 0, 0, 0, 0, 0, 0]
      0).display ∧
    (draw_sprite_at_coordinates_vx_vy_with_height_n 0xD011
      (mkState [0xF0, 0x0F] [63, 31, 0, 0, 0, 0, 0, 0, 0, 0, 0, 0, 0, 0, 0, 0] 0)).pixOf
      31 0 = some true ∧
    (draw_sprite_at_coordinates_vx_vy_with_height_n 0xD012
      (mkState [0xF0, 0x0F] [63, 31, 0, 0, 0, 0, 0, 0, 0, 0, 0, 0, 0, 0, 0, 0] 0)).pixOf
      0 6 = some true := by
  refine ⟨by decide, ?_, ?_⟩
  · obtain ⟨⟨st', hok, -, -, hpt⟩, -⟩ := c9_draw_wraps_and_stays_in_bounds
      (mkState [0xF0, 0x0F] [63, 31, 0, 0, 0, 0, 0, 0, 0, 0, 0, 0, 0, 0, 0, 0] 0)
      0xF0 0x0F (by decide) rfl rfl rfl rfl
    rw [show (draw_sprite_at_coordinates_vx_vy_with_height_n 0xD011
      (mkState [0xF0, 0x0F] [63, 31, 0, 0, 0, 0, 0, 0, 0, 0, 0, 0, 0, 0, 0, 0] 0)).pixOf
      31 0 = some (pixAt st'.display 31 0) from by rw [hok]; rfl]
    rw [hpt 31 0 (by omega) (by omega)]
    decide
  · obtain ⟨-, ⟨st', hok, -, hpt⟩⟩ := c9_draw_wraps_and_stays_in_bounds
      (mkState [0xF0, 0x0F] [63, 31, 0, 0, 0, 0, 0, 0, 0, 0, 0, 0, 0, 0, 0, 0] 0)
      0xF0 0x0F (by decide) rfl rfl rfl rfl
    rw [show (draw_sprite_at_coordinates_vx_vy_with_height_n 0xD012
      (mkState [0xF0, 0x0F] [63, 31, 0, 0, 0, 0, 0, 0, 0, 0, 0, 0, 0, 0, 0, 0] 0)).pixOf
      0 6 = some (pixAt st'.display 0 6) from by rw [hok]; rfl]
    rw [hpt 0 6 (by omega) (by omega)]
    decide


end Chip8Spec
